import Mathlib

/-!
Verification development for the asset-variant and generation-state
management engine of the lumenx-studio repository.  The Lean definitions
below are shallow embeddings of the Python functions in
`src/apps/comic_gen/models.py`, `src/apps/comic_gen/assets.py` and
`src/apps/comic_gen/pipeline.py`.  Opaque identifiers (uuid strings) are
modelled as `String`, timestamps (`time.time()` floats) as `Int`, and
external effects (file system, OSS upload, the image backend, JSON
persistence) as explicit parameters recording their outcome.
-/

namespace LumenX

/-- Embeds `ImageVariant` (models.py).  String fields not consulted by any
pool or generation logic (`prompt_used`, `upload_type`) are omitted. -/
structure ImageVariant where
  id : String
  url : String
  created_at : Int
  is_favorited : Bool
  is_uploaded_source : Bool
deriving DecidableEq, Repr

/-- Embeds `MAX_VARIANTS_PER_ASSET` (models.py): retention cap for
non-favorited variants. -/
def MAX_VARIANTS_PER_ASSET : Nat := 10

/-- Embeds `ImageAsset` (models.py): a variant pool with a selection. -/
structure ImageAsset where
  selected_id : Option String
  variants : List ImageVariant
deriving DecidableEq, Repr

/-- A fresh `ImageAsset()`: no selection, no variants. -/
def emptyAsset : ImageAsset := { selected_id := none, variants := [] }

/-- The key ordering used by `non_favorited.sort(key=lambda v: v.created_at)`. -/
def createdLE (a b : ImageVariant) : Prop := a.created_at ≤ b.created_at

instance : DecidableRel createdLE :=
  fun a b => inferInstanceAs (Decidable (a.created_at ≤ b.created_at))

instance : IsTotal ImageVariant createdLE := ⟨fun a b => le_total a.created_at b.created_at⟩

instance : IsTrans ImageVariant createdLE := ⟨fun _ _ _ h1 h2 => le_trans h1 h2⟩

/-- Embeds `cleanup_old_variants` (assets.py lines 13-38): keep at most
`MAX_VARIANTS_PER_ASSET` non-favorited variants, never removing favorited
ones; over the limit the oldest (smallest `created_at`) non-favorited
variants are dropped, and the pool is rebuilt as favorited ++ remaining
non-favorited newest-first.  Python `list.sort` is a stable ascending
sort; `List.insertionSort` is stable with the same ordering, so the two
agree on every input.  The Python guard `if not image_asset or not
image_asset.variants` is the emptiness test (the pipeline never passes
`None` where these claims apply). -/
def cleanup_old_variants (a : ImageAsset) : ImageAsset :=
  if a.variants = [] then a
  else
    let favorited := a.variants.filter fun v => v.is_favorited
    let non_favorited := (a.variants.filter fun v => !v.is_favorited).insertionSort createdLE
    let remaining :=
      if MAX_VARIANTS_PER_ASSET < non_favorited.length then
        non_favorited.drop (non_favorited.length - MAX_VARIANTS_PER_ASSET)
      else non_favorited
    { a with variants := favorited ++ remaining.reverse }

/-- The non-favorited variants of a pool, in pool order. -/
def nonFavoritedOf (a : ImageAsset) : List ImageVariant :=
  a.variants.filter fun v => !v.is_favorited

/-- Embeds `_select_variant_in_asset` (pipeline.py lines 1106-1115):
sets `selected_id` and returns the variant when the id is found,
otherwise returns the pool unchanged and `None`. -/
def select_variant_in_asset (a : ImageAsset) (vid : String) :
    ImageAsset × Option ImageVariant :=
  if a.variants = [] then (a, none)
  else
    match a.variants.find? (fun v => v.id == vid) with
    | some v => ({ a with selected_id := some vid }, some v)
    | none => (a, none)

/-- Embeds `_delete_variant_in_asset` (pipeline.py lines 1117-1133):
filters the variant out; if it was selected, re-selects `variants[-1]`
(the last element of the remaining list) or clears the selection. -/
def delete_variant_in_asset (a : ImageAsset) (vid : String) :
    ImageAsset × Bool :=
  if a.variants = [] then (a, false)
  else if (a.variants.filter fun v => v.id != vid).length < a.variants.length then
    ({ selected_id :=
         if a.selected_id == some vid then
           (a.variants.filter fun v => v.id != vid).getLast?.map (fun v => v.id)
         else a.selected_id,
       variants := a.variants.filter fun v => v.id != vid }, true)
  else (a, false)

/-- Embeds the search loop of `_set_variant_favorite` (pipeline.py lines
1305-1308): flips the flag on the first variant with the given id. -/
def set_favorite_first : List ImageVariant → String → Bool → Option (List ImageVariant)
  | [], _, _ => none
  | v :: rest, vid, fav =>
    if v.id == vid then some ({ v with is_favorited := fav } :: rest)
    else
      match set_favorite_first rest vid fav with
      | some rest2 => some (v :: rest2)
      | none => none

/-- Embeds `_set_variant_favorite` (pipeline.py lines 1301-1309). -/
def set_variant_favorite (a : ImageAsset) (vid : String) (fav : Bool) :
    ImageAsset × Bool :=
  if a.variants = [] then (a, false)
  else
    match set_favorite_first a.variants vid fav with
    | some vs => ({ a with variants := vs }, true)
    | none => (a, false)

/-- Embeds one successful iteration of the batch generation loop
(assets.py lines 160-175): prepend the new variant, run retention
cleanup, then auto-select the new variant when nothing is selected or
`batch_size == 1`. -/
def gen_insert_variant (a : ImageAsset) (v : ImageVariant) (batchSize : Nat) : ImageAsset :=
  let a1 := cleanup_old_variants { a with variants := v :: a.variants }
  if a1.selected_id.isNone || batchSize == 1 then { a1 with selected_id := some v.id }
  else a1

/-- One pool-level operation, as issued by the pipeline endpoints. -/
inductive PoolOp where
  | genInsert (v : ImageVariant) (batchSize : Nat)
  | select (vid : String)
  | delete (vid : String)
  | favorite (vid : String) (fav : Bool)
deriving DecidableEq, Repr

/-- Applies one pool operation (the state part of the corresponding
pipeline helper). -/
def applyPoolOp (a : ImageAsset) : PoolOp → ImageAsset
  | .genInsert v n => gen_insert_variant a v n
  | .select vid => (select_variant_in_asset a vid).1
  | .delete vid => (delete_variant_in_asset a vid).1
  | .favorite vid f => (set_variant_favorite a vid f).1

/-- Applies a sequence of pool operations. -/
def applyPoolOps (a : ImageAsset) (ops : List PoolOp) : ImageAsset :=
  ops.foldl applyPoolOp a

/-- The pool selection invariant of the specification: when the pool is
non-empty, `selected_id` is empty or the id of a current variant. -/
def selectionInvariant (a : ImageAsset) : Prop :=
  a.variants ≠ [] → ∀ sel, a.selected_id = some sel → sel ∈ a.variants.map (fun v => v.id)

lemma orderedInsert_of_max (x : ImageVariant) (l : List ImageVariant)
    (h : ∀ y ∈ l, y.created_at < x.created_at) :
    l.orderedInsert createdLE x = l ++ [x] := by
  induction l with
  | nil => simp [List.orderedInsert]
  | cons y ys ih =>
    have hy : ¬ createdLE x y := not_le.mpr (h y (List.mem_cons_self y ys))
    simp only [List.orderedInsert, if_neg hy]
    rw [ih (fun z hz => h z (List.mem_cons_of_mem y hz))]
    simp

lemma insertionSort_cons_max (x : ImageVariant) (l : List ImageVariant)
    (h : ∀ y ∈ l, y.created_at < x.created_at) :
    (x :: l).insertionSort createdLE = l.insertionSort createdLE ++ [x] := by
  simp only [List.insertionSort]
  exact orderedInsert_of_max x _
    (fun y hy => h y ((List.perm_insertionSort createdLE l).subset hy))

lemma mem_drop_iff_rank :
    ∀ (s : List ImageVariant), s.Sorted createdLE →
      s.Pairwise (fun x y => x.created_at ≠ y.created_at) →
      ∀ v ∈ s, ∀ k : Nat,
        (v ∈ s.drop k ↔ k ≤ s.countP (fun w => decide (w.created_at < v.created_at))) := by
  intro s
  induction s with
  | nil => intro _ _ v hv; simp at hv
  | cons x t ih =>
    intro hs hd v hv k
    have hxle : ∀ b ∈ t, createdLE x b := List.rel_of_sorted_cons hs
    have hst : t.Sorted createdLE := hs.of_cons
    have hdx : ∀ y ∈ t, x.created_at ≠ y.created_at := (List.pairwise_cons.mp hd).1
    have hdt : t.Pairwise (fun a b => a.created_at ≠ b.created_at) :=
      (List.pairwise_cons.mp hd).2
    cases k with
    | zero => simp [hv]
    | succ k =>
      rw [List.drop_succ_cons]
      rcases List.mem_cons.mp hv with hvx | hvt
      · subst hvx
        constructor
        · intro hmem
          exact absurd rfl (hdx v ((List.drop_sublist k t).mem hmem))
        · intro hk
          have hcount : (v :: t).countP (fun w => decide (w.created_at < v.created_at)) = 0 := by
            rw [List.countP_eq_zero]
            intro w hw
            rcases List.mem_cons.mp hw with hwv | hwt
            · subst hwv; simp
            · simp only [decide_eq_true_eq]
              exact not_lt.mpr (hxle w hwt)
          rw [hcount] at hk
          omega
      · have hlt : x.created_at < v.created_at :=
          lt_of_le_of_ne (hxle v hvt) (hdx v hvt)
        have hdec : (fun w => decide (w.created_at < v.created_at)) x = true := by
          simp only [decide_eq_true_eq]
          exact hlt
        rw [List.countP_cons, if_pos hdec, ih hst hdt v hvt k]
        omega

lemma eq_of_perm_sorted_distinct :
    ∀ (l1 l2 : List ImageVariant), l1.Perm l2 → l1.Sorted createdLE → l2.Sorted createdLE →
      l1.Pairwise (fun x y => x.created_at ≠ y.created_at) → l1 = l2 := by
  intro l1
  induction l1 with
  | nil =>
    intro l2 hp _ _ _
    exact (hp.symm.eq_nil).symm
  | cons x t ih =>
    intro l2 hp hs1 hs2 hd
    cases l2 with
    | nil => exact absurd hp.eq_nil (by simp)
    | cons y t2 =>
      have hx2 : x = y := by
        rcases List.mem_cons.mp (hp.mem_iff.mpr (List.mem_cons_self y t2)) with h | hyt
        · exact h.symm
        · exfalso
          have h1 : x.created_at ≤ y.created_at := List.rel_of_sorted_cons hs1 y hyt
          have hne : x.created_at ≠ y.created_at := (List.pairwise_cons.mp hd).1 y hyt
          rcases List.mem_cons.mp (hp.mem_iff.mp (List.mem_cons_self x t)) with h2 | hxt2
          · exact hne (by rw [h2])
          · exact hne (le_antisymm h1 (List.rel_of_sorted_cons hs2 x hxt2))
      subst hx2
      have hpt : t.Perm t2 := hp.cons_inv
      rw [ih t2 hpt hs1.of_cons hs2.of_cons (List.pairwise_cons.mp hd).2]

lemma nonFavoritedOf_def (a : ImageAsset) :
    List.filter (fun v => !v.is_favorited) a.variants = nonFavoritedOf a := rfl

lemma mem_cleanup_of_favorited (a : ImageAsset) (v : ImageVariant)
    (hv : v ∈ a.variants) (hf : v.is_favorited = true) :
    v ∈ (cleanup_old_variants a).variants := by
  unfold cleanup_old_variants
  by_cases he : a.variants = []
  · rw [he] at hv
    simp at hv
  · rw [if_neg he]
    exact List.mem_append_left _ (List.mem_filter.mpr ⟨hv, hf⟩)

lemma mem_cleanup_nonfav_iff (a : ImageAsset)
    (hd : (nonFavoritedOf a).Pairwise (fun x y => x.created_at ≠ y.created_at))
    (hlen : MAX_VARIANTS_PER_ASSET < (nonFavoritedOf a).length)
    (v : ImageVariant) (hv : v ∈ nonFavoritedOf a) :
    (v ∈ (cleanup_old_variants a).variants ↔
      (nonFavoritedOf a).length - MAX_VARIANTS_PER_ASSET ≤
        (nonFavoritedOf a).countP (fun w => decide (w.created_at < v.created_at))) := by
  have hne : a.variants ≠ [] := by
    intro h
    rw [nonFavoritedOf, h] at hlen
    simp at hlen
  have hperm : ((nonFavoritedOf a).insertionSort createdLE).Perm (nonFavoritedOf a) :=
    List.perm_insertionSort createdLE (nonFavoritedOf a)
  have hsort : ((nonFavoritedOf a).insertionSort createdLE).Sorted createdLE :=
    List.sorted_insertionSort createdLE (nonFavoritedOf a)
  have hlens : ((nonFavoritedOf a).insertionSort createdLE).length = (nonFavoritedOf a).length :=
    hperm.length_eq
  have hds : ((nonFavoritedOf a).insertionSort createdLE).Pairwise
      (fun x y => x.created_at ≠ y.created_at) :=
    (hperm.pairwise_iff (fun hxy => Ne.symm hxy)).mpr hd
  have hvs : v ∈ (nonFavoritedOf a).insertionSort createdLE := hperm.mem_iff.mpr hv
  have hcount : ((nonFavoritedOf a).insertionSort createdLE).countP
        (fun w => decide (w.created_at < v.created_at)) =
      (nonFavoritedOf a).countP (fun w => decide (w.created_at < v.created_at)) :=
    hperm.countP_eq _
  have hvnotfav : v.is_favorited = false := by
    have := (List.mem_filter.mp hv).2
    simp only [Bool.not_eq_eq_eq_not, Bool.not_true] at this
    exact this
  have hnotinfav : v ∉ a.variants.filter (fun w => w.is_favorited) := by
    intro hmem
    have hf := (List.mem_filter.mp hmem).2
    simp [hvnotfav] at hf
  unfold cleanup_old_variants
  rw [if_neg hne]
  simp only [nonFavoritedOf_def]
  simp only [List.mem_append, List.mem_reverse]
  rw [if_pos (by rw [hlens]; exact hlen)]
  constructor
  · intro hor
    rcases hor with hfav | hdrop
    · exact absurd hfav hnotinfav
    · have := (mem_drop_iff_rank _ hsort hds v hvs _).mp hdrop
      rw [hcount, hlens] at this
      exact this
  · intro hrank
    right
    refine (mem_drop_iff_rank _ hsort hds v hvs _).mpr ?hh
    rw [hcount, hlens]
    exact hrank

/-- A pool of 12 non-favorited variants with distinct `created_at`,
listed newest-first. -/
def poolTwelve : ImageAsset :=
  { selected_id := none,
    variants :=
      [ ⟨"w12", "u12", 12, false, false⟩, ⟨"w11", "u11", 11, false, false⟩,
        ⟨"w10", "u10", 10, false, false⟩, ⟨"w9", "u9", 9, false, false⟩,
        ⟨"w8", "u8", 8, false, false⟩, ⟨"w7", "u7", 7, false, false⟩,
        ⟨"w6", "u6", 6, false, false⟩, ⟨"w5", "u5", 5, false, false⟩,
        ⟨"w4", "u4", 4, false, false⟩, ⟨"w3", "u3", 3, false, false⟩,
        ⟨"w2", "u2", 2, false, false⟩, ⟨"w1", "u1", 1, false, false⟩ ] }

/-- C4: retention enforcement (`cleanup_old_variants`) never removes a
favorited variant regardless of count, and when the non-favorited count
exceeds the cap it removes exactly the excess non-favorited variants
that are oldest by `created_at`: under distinct timestamps, a
non-favorited variant survives iff at least `count - cap` non-favorited
variants are strictly older than it. -/
theorem cleanup_retention_policy (a : ImageAsset) :
    (∀ v ∈ a.variants, v.is_favorited = true → v ∈ (cleanup_old_variants a).variants) ∧
    ((nonFavoritedOf a).Pairwise (fun x y => x.created_at ≠ y.created_at) →
      MAX_VARIANTS_PER_ASSET < (nonFavoritedOf a).length →
      ∀ v ∈ nonFavoritedOf a,
        (v ∈ (cleanup_old_variants a).variants ↔
          (nonFavoritedOf a).length - MAX_VARIANTS_PER_ASSET ≤
            (nonFavoritedOf a).countP (fun w => decide (w.created_at < v.created_at)))) :=
  ⟨fun v hv hf => mem_cleanup_of_favorited a v hv hf,
   fun hd hlen v hv => mem_cleanup_nonfav_iff a hd hlen v hv⟩

/-- Witness for C4: on a pool of 12 non-favorited variants with distinct
`created_at` and cap 10, exactly the 2 oldest (`created_at` 1 and 2) are
removed and the third-oldest survives. -/
theorem cleanup_retention_policy_witness :
    (⟨"w1", "u1", 1, false, false⟩ : ImageVariant) ∉ (cleanup_old_variants poolTwelve).variants ∧
    (⟨"w2", "u2", 2, false, false⟩ : ImageVariant) ∉ (cleanup_old_variants poolTwelve).variants ∧
    (⟨"w3", "u3", 3, false, false⟩ : ImageVariant) ∈ (cleanup_old_variants poolTwelve).variants := by
  have h := (cleanup_retention_policy poolTwelve).2 (by decide) (by decide)
  refine ⟨?h1, ?h2, ?h3⟩
  · intro hmem
    have hr := (h _ (by decide)).mp hmem
    revert hr
    decide
  · intro hmem
    have hr := (h _ (by decide)).mp hmem
    revert hr
    decide
  · exact (h _ (by decide)).mpr (by decide)

/-- Two non-favorited variants sharing one `created_at`. -/
def poolTie : ImageAsset :=
  { selected_id := none,
    variants := [⟨"ta", "ua", 5, false, false⟩, ⟨"tb", "ub", 5, false, false⟩] }

/-- Counterexample for C5: with two non-favorited variants of equal
`created_at`, the stable sort plus the final reversal swap the pair on
every call, so applying retention enforcement twice differs from
applying it once. -/
theorem cleanup_idempotence_counterexample :
    cleanup_old_variants (cleanup_old_variants poolTie) ≠ cleanup_old_variants poolTie := by
  decide

lemma cleanup_eq (a : ImageAsset) (he : a.variants ≠ []) :
    cleanup_old_variants a =
      { a with variants :=
          a.variants.filter (fun v => v.is_favorited) ++
          (if MAX_VARIANTS_PER_ASSET <
              ((a.variants.filter (fun v => !v.is_favorited)).insertionSort createdLE).length then
            ((a.variants.filter (fun v => !v.is_favorited)).insertionSort createdLE).drop
              (((a.variants.filter (fun v => !v.is_favorited)).insertionSort createdLE).length -
                MAX_VARIANTS_PER_ASSET)
          else (a.variants.filter (fun v => !v.is_favorited)).insertionSort createdLE).reverse } := by
  unfold cleanup_old_variants
  rw [if_neg he]

lemma if_drop_sublist (s : List ImageVariant) :
    (if MAX_VARIANTS_PER_ASSET < s.length then
      s.drop (s.length - MAX_VARIANTS_PER_ASSET) else s).Sublist s := by
  split
  · exact List.drop_sublist _ _
  · exact List.Sublist.refl s

lemma if_drop_length_le (s : List ImageVariant) :
    (if MAX_VARIANTS_PER_ASSET < s.length then
      s.drop (s.length - MAX_VARIANTS_PER_ASSET) else s).length ≤ MAX_VARIANTS_PER_ASSET := by
  split
  · rw [List.length_drop]
    omega
  · omega

lemma eq_nil_of_filter_both (l : List ImageVariant)
    (h1 : l.filter (fun v => v.is_favorited) = [])
    (h2 : l.filter (fun v => !v.is_favorited) = []) : l = [] := by
  cases l with
  | nil => rfl
  | cons x t => cases hx : x.is_favorited <;> simp [List.filter_cons, hx] at h1 h2

lemma cleanup_of_partitioned (sel : Option String) (fav kept : List ImageVariant)
    (hfav : ∀ v ∈ fav, v.is_favorited = true)
    (hkept : ∀ v ∈ kept, v.is_favorited = false)
    (hsorted : kept.Sorted createdLE)
    (hdk : kept.Pairwise (fun x y => x.created_at ≠ y.created_at))
    (hlen : kept.length ≤ MAX_VARIANTS_PER_ASSET)
    (hne : fav ++ kept.reverse ≠ []) :
    cleanup_old_variants { selected_id := sel, variants := fav ++ kept.reverse } =
      { selected_id := sel, variants := fav ++ kept.reverse } := by
  have h1 : (fav ++ kept.reverse).filter (fun v => v.is_favorited) = fav := by
    rw [List.filter_append, List.filter_eq_self.mpr hfav]
    have h0 : kept.reverse.filter (fun v => v.is_favorited) = [] := by
      rw [List.filter_eq_nil_iff]
      intro v hv
      rw [hkept v (List.mem_reverse.mp hv)]
      simp
    rw [h0, List.append_nil]
  have h2 : (fav ++ kept.reverse).filter (fun v => !v.is_favorited) = kept.reverse := by
    rw [List.filter_append]
    have h0 : fav.filter (fun v => !v.is_favorited) = [] := by
      rw [List.filter_eq_nil_iff]
      intro v hv
      rw [hfav v hv]
      simp
    rw [h0, List.nil_append, List.filter_eq_self.mpr
      (fun v hv => by rw [hkept v (List.mem_reverse.mp hv)]; rfl)]
  have h3 : (kept.reverse).insertionSort createdLE = kept := by
    refine (eq_of_perm_sorted_distinct kept _ ?hp hsorted
      (List.sorted_insertionSort createdLE kept.reverse) hdk).symm
    exact ((List.perm_insertionSort createdLE kept.reverse).trans
      (List.reverse_perm kept)).symm
  rw [cleanup_eq _ hne]
  simp only [h1, h2, h3]
  rw [if_neg (not_lt.mpr hlen)]

/-- C5 (amended): retention enforcement is idempotent on every pool whose
non-favorited variants carry pairwise distinct `created_at` timestamps. -/
theorem cleanup_idempotent_of_distinct (a : ImageAsset)
    (hd : (nonFavoritedOf a).Pairwise (fun x y => x.created_at ≠ y.created_at)) :
    cleanup_old_variants (cleanup_old_variants a) = cleanup_old_variants a := by
  by_cases he : a.variants = []
  · have h1 : cleanup_old_variants a = a := by
      unfold cleanup_old_variants
      rw [if_pos he]
    rw [h1]
    exact h1
  · have hperm : ((nonFavoritedOf a).insertionSort createdLE).Perm (nonFavoritedOf a) :=
      List.perm_insertionSort createdLE (nonFavoritedOf a)
    have hsort : ((nonFavoritedOf a).insertionSort createdLE).Sorted createdLE :=
      List.sorted_insertionSort createdLE (nonFavoritedOf a)
    have hds : ((nonFavoritedOf a).insertionSort createdLE).Pairwise
        (fun x y => x.created_at ≠ y.created_at) :=
      (hperm.pairwise_iff (fun hxy => Ne.symm hxy)).mpr hd
    rw [cleanup_eq a he]
    simp only [nonFavoritedOf_def]
    refine cleanup_of_partitioned a.selected_id _ _
      (fun v hv => (List.mem_filter.mp hv).2) ?hkept ?hsorted ?hdk ?hlen ?hne
    case hkept =>
      intro v hv
      have hvn : v ∈ nonFavoritedOf a :=
        hperm.subset ((if_drop_sublist _).mem hv)
      have := (List.mem_filter.mp hvn).2
      simp only [Bool.not_eq_eq_eq_not, Bool.not_true] at this
      exact this
    case hsorted => exact List.Pairwise.sublist (if_drop_sublist _) hsort
    case hdk => exact List.Pairwise.sublist (if_drop_sublist _) hds
    case hlen => exact if_drop_length_le _
    case hne =>
      intro hnil
      rcases List.append_eq_nil.mp hnil with ⟨hf, hk⟩
      have hkept0 : (if MAX_VARIANTS_PER_ASSET <
            ((nonFavoritedOf a).insertionSort createdLE).length then
          ((nonFavoritedOf a).insertionSort createdLE).drop
            (((nonFavoritedOf a).insertionSort createdLE).length - MAX_VARIANTS_PER_ASSET)
        else ((nonFavoritedOf a).insertionSort createdLE)) = [] := by
        rw [← List.reverse_eq_nil_iff]
        exact hk
      have hs0 : (nonFavoritedOf a).insertionSort createdLE = [] := by
        by_cases hc : MAX_VARIANTS_PER_ASSET <
            ((nonFavoritedOf a).insertionSort createdLE).length
        · rw [if_pos hc] at hkept0
          have hL := congrArg List.length hkept0
          rw [List.length_drop] at hL
          simp only [List.length_nil] at hL
          have hM : MAX_VARIANTS_PER_ASSET = 10 := rfl
          omega
        · rw [if_neg hc] at hkept0
          exact hkept0
      have hnf : nonFavoritedOf a = [] := by
        have hp2 := hperm.symm
        rw [hs0] at hp2
        exact hp2.eq_nil
      exact he (eq_nil_of_filter_both a.variants hf hnf)

/-- Witness for the amended C5 at a concrete pool with distinct
`created_at` timestamps. -/
theorem cleanup_idempotent_of_distinct_witness :
    cleanup_old_variants (cleanup_old_variants poolTwelve) = cleanup_old_variants poolTwelve :=
  cleanup_idempotent_of_distinct poolTwelve (by decide)

lemma cleanup_selected_id (a : ImageAsset) :
    (cleanup_old_variants a).selected_id = a.selected_id := by
  unfold cleanup_old_variants
  split <;> rfl

lemma mem_of_getLast? (l : List ImageVariant) (w : ImageVariant)
    (h : l.getLast? = some w) : w ∈ l := by
  cases l with
  | nil => simp at h
  | cons x t =>
    rw [List.getLast?_eq_getLast _ (List.cons_ne_nil x t)] at h
    rw [← Option.some.inj h]
    exact List.getLast_mem _

lemma select_invariant (a : ImageAsset) (vid : String) (h : selectionInvariant a) :
    selectionInvariant (select_variant_in_asset a vid).1 := by
  unfold select_variant_in_asset
  by_cases he : a.variants = []
  · rw [if_pos he]
    exact h
  · rw [if_neg he]
    cases hf : a.variants.find? (fun v => v.id == vid) with
    | none => exact h
    | some v =>
      intro hne sel hsel
      simp only [Option.some.injEq] at hsel
      have hv := List.mem_of_find?_eq_some hf
      have hvid : v.id = vid := by
        have hb := List.find?_some hf
        simpa using hb
      exact List.mem_map.mpr ⟨v, hv, by rw [hvid, hsel]⟩

lemma delete_invariant (a : ImageAsset) (vid : String) (h : selectionInvariant a) :
    selectionInvariant (delete_variant_in_asset a vid).1 := by
  unfold delete_variant_in_asset
  by_cases he : a.variants = []
  · rw [if_pos he]
    exact h
  · rw [if_neg he]
    by_cases hlt : (a.variants.filter fun v => v.id != vid).length < a.variants.length
    · rw [if_pos hlt]
      intro hne sel hsel
      simp only at hsel hne ⊢
      by_cases hseq : (a.selected_id == some vid) = true
      · rw [if_pos hseq] at hsel
        rcases Option.map_eq_some'.mp hsel with ⟨w, hw, hwid⟩
        exact List.mem_map.mpr ⟨w, mem_of_getLast? _ _ hw, hwid⟩
      · rw [if_neg hseq] at hsel
        have hsv : sel ≠ vid := by
          intro hcontra
          subst hcontra
          rw [hsel] at hseq
          exact hseq (by simp)
        rcases List.mem_map.mp (h he sel hsel) with ⟨w, hwmem, hwid⟩
        refine List.mem_map.mpr ⟨w, List.mem_filter.mpr ⟨hwmem, ?_⟩, hwid⟩
        rw [hwid]
        exact bne_iff_ne.mpr hsv
    · rw [if_neg hlt]
      exact h

lemma set_favorite_first_map_id :
    ∀ (l : List ImageVariant) (vid : String) (fav : Bool) (l2 : List ImageVariant),
      set_favorite_first l vid fav = some l2 →
      l2.map (fun v => v.id) = l.map (fun v => v.id) := by
  intro l
  induction l with
  | nil =>
    intro vid fav l2 h
    simp [set_favorite_first] at h
  | cons v rest ih =>
    intro vid fav l2 h
    rw [set_favorite_first] at h
    by_cases hv : (v.id == vid) = true
    · rw [if_pos hv] at h
      rw [← Option.some.inj h]
      simp
    · rw [if_neg hv] at h
      cases hrec : set_favorite_first rest vid fav with
      | none =>
        rw [hrec] at h
        exact absurd h (by simp)
      | some r2 =>
        rw [hrec] at h
        rw [← Option.some.inj h]
        simp only [List.map_cons]
        rw [ih vid fav r2 hrec]

lemma favorite_invariant (a : ImageAsset) (vid : String) (fav : Bool)
    (h : selectionInvariant a) :
    selectionInvariant (set_variant_favorite a vid fav).1 := by
  unfold set_variant_favorite
  by_cases he : a.variants = []
  · rw [if_pos he]
    exact h
  · rw [if_neg he]
    cases hsf : set_favorite_first a.variants vid fav with
    | none => exact h
    | some vs =>
      intro hne sel hsel
      simp only at hsel ⊢
      rw [set_favorite_first_map_id _ _ _ _ hsf]
      exact h he sel hsel

lemma mem_cleanup_cons_of_max (a : ImageAsset) (v : ImageVariant)
    (hmax : ∀ w ∈ a.variants, w.created_at < v.created_at) :
    v ∈ (cleanup_old_variants { a with variants := v :: a.variants }).variants := by
  by_cases hf : v.is_favorited = true
  · exact mem_cleanup_of_favorited _ v (List.mem_cons_self _ _) hf
  · have hne : ({ a with variants := v :: a.variants } : ImageAsset).variants ≠ [] :=
      List.cons_ne_nil _ _
    rw [cleanup_eq _ hne]
    simp only
    have hfil : (v :: a.variants).filter (fun w => !w.is_favorited) =
        v :: a.variants.filter (fun w => !w.is_favorited) := by
      rw [List.filter_cons, if_pos (by simp [Bool.not_eq_true] at hf; simp [hf])]
    rw [hfil, insertionSort_cons_max v (a.variants.filter fun w => !w.is_favorited)
      (fun y hy => hmax y (List.mem_filter.mp hy).1)]
    apply List.mem_append_right
    rw [List.mem_reverse]
    have hM : MAX_VARIANTS_PER_ASSET = 10 := rfl
    split
    · rw [List.drop_append_of_le_length (by
        rw [List.length_append, List.length_cons, List.length_nil]
        omega)]
      exact List.mem_append_right _ (List.mem_singleton.mpr rfl)
    · exact List.mem_append_right _ (List.mem_singleton.mpr rfl)

lemma gen_insert_one_invariant (a : ImageAsset) (v : ImageVariant)
    (hmax : ∀ w ∈ a.variants, w.created_at < v.created_at) :
    selectionInvariant (gen_insert_variant a v 1) := by
  unfold gen_insert_variant
  simp only [beq_self_eq_true, Bool.or_true, if_true]
  intro hne sel hsel
  simp only [Option.some.injEq] at hsel
  refine List.mem_map.mpr ⟨v, ?_, hsel⟩
  exact mem_cleanup_cons_of_max a v hmax

/-- Whether an operation respects the conditions under which the code
keeps the selection valid: generation inserts must be auto-selecting
(`batch_size == 1`) and must use a strictly fresher timestamp than every
variant already in the pool (the monotone `time.time()` clock). -/
def poolOpSafe (a : ImageAsset) : PoolOp → Prop
  | .genInsert v n => n = 1 ∧ ∀ w ∈ a.variants, w.created_at < v.created_at
  | .select _ => True
  | .delete _ => True
  | .favorite _ _ => True

/-- `poolOpSafe` along a whole trace. -/
def poolOpsSafe : ImageAsset → List PoolOp → Prop
  | _, [] => True
  | a, op :: rest => poolOpSafe a op ∧ poolOpsSafe (applyPoolOp a op) rest

/-- C1 (amended): the pool selection invariant holds after every sequence
of deletion, selection and favoriting operations, and of generation
insertions that auto-select (`batch_size == 1`) under a strictly
increasing creation clock.  (A multi-variant batch whose retention pass
evicts the selected variant violates the unrestricted invariant; see the
counterexample.) -/
theorem pool_selection_invariant_safe (ops : List PoolOp) :
    ∀ (a : ImageAsset), selectionInvariant a → poolOpsSafe a ops →
      selectionInvariant (applyPoolOps a ops) := by
  induction ops with
  | nil =>
    intro a h _
    exact h
  | cons op rest ih =>
    intro a h hsafe
    refine ih (applyPoolOp a op) ?_ hsafe.2
    cases op with
    | genInsert v n =>
      rcases hsafe.1 with ⟨hn, hmax⟩
      subst hn
      exact gen_insert_one_invariant a v hmax
    | select vid => exact select_invariant a vid h
    | delete vid => exact delete_invariant a vid h
    | favorite vid f => exact favorite_invariant a vid f h

/-- Witness for the amended C1 on a concrete safe trace from the empty
pool. -/
theorem pool_selection_invariant_safe_witness :
    selectionInvariant (applyPoolOps emptyAsset
      [PoolOp.genInsert ⟨"n1", "n1", 1, false, false⟩ 1, PoolOp.delete "n1"]) := by
  apply pool_selection_invariant_safe
  · intro hne
    exact absurd rfl hne
  · exact ⟨⟨rfl, by decide⟩, ⟨trivial, trivial⟩⟩

/-- A trace that breaks the unrestricted invariant: fill the pool with 10
single generations, select the oldest variant, then run one batch of
size 2; retention evicts the selected variant and, because
`batch_size != 1` and a selection exists, nothing re-points it. -/
def opsCounterexample : List PoolOp :=
  [ .genInsert ⟨"v1", "v1", 1, false, false⟩ 1,
    .genInsert ⟨"v2", "v2", 2, false, false⟩ 1,
    .genInsert ⟨"v3", "v3", 3, false, false⟩ 1,
    .genInsert ⟨"v4", "v4", 4, false, false⟩ 1,
    .genInsert ⟨"v5", "v5", 5, false, false⟩ 1,
    .genInsert ⟨"v6", "v6", 6, false, false⟩ 1,
    .genInsert ⟨"v7", "v7", 7, false, false⟩ 1,
    .genInsert ⟨"v8", "v8", 8, false, false⟩ 1,
    .genInsert ⟨"v9", "v9", 9, false, false⟩ 1,
    .genInsert ⟨"v10", "v10", 10, false, false⟩ 1,
    .select "v1",
    .genInsert ⟨"v11", "v11", 11, false, false⟩ 2,
    .genInsert ⟨"v12", "v12", 12, false, false⟩ 2 ]

/-- Counterexample for C1 as stated: after `opsCounterexample` (insertions
with retention as performed during generation, plus one selection) the
pool is non-empty and `selected_id` still holds the id of the evicted
variant `v1`. -/
theorem pool_selection_invariant_counterexample :
    ¬ selectionInvariant (applyPoolOps emptyAsset opsCounterexample) := by
  intro h
  have h1 : (applyPoolOps emptyAsset opsCounterexample).variants ≠ [] := by decide
  have h2 : (applyPoolOps emptyAsset opsCounterexample).selected_id = some "v1" := by decide
  have h3 := h h1 "v1" h2
  revert h3
  decide

/-- A pool of three variants, newest-first, with the middle one
selected. -/
def poolThree : ImageAsset :=
  { selected_id := some "b",
    variants := [⟨"a", "a", 3, false, false⟩, ⟨"b", "b", 2, false, false⟩,
                 ⟨"c", "c", 1, false, false⟩] }

/-- Counterexample for C2 as stated: deleting the selected variant `b`
re-points the selection to `c`, the last element of the remaining
newest-first list (the oldest variant), not to the first element `a`
(the most recently inserted one) as the claim requires. -/
theorem delete_reselect_counterexample :
    (delete_variant_in_asset poolThree "b").1.selected_id = some "c" ∧
    ((delete_variant_in_asset poolThree "b").1.variants.head?.map (fun v => v.id)) = some "a" ∧
    (delete_variant_in_asset poolThree "b").1.selected_id ≠
      ((delete_variant_in_asset poolThree "b").1.variants.head?.map (fun v => v.id)) := by
  decide

/-- C2 (amended): deleting a present variant id removes it (the variants
list becomes the filtered list); if it was selected, the selection is
re-pointed to the last element of the remaining newest-first list — the
oldest remaining variant by pool order — or cleared when the pool
becomes empty; if it was not selected, the selection is unchanged. -/
theorem delete_variant_spec (a : ImageAsset) (vid : String)
    (hmem : ∃ v ∈ a.variants, v.id = vid) :
    (delete_variant_in_asset a vid).2 = true ∧
    (delete_variant_in_asset a vid).1.variants = a.variants.filter (fun v => v.id != vid) ∧
    (a.selected_id = some vid →
      (delete_variant_in_asset a vid).1.selected_id =
        ((a.variants.filter fun v => v.id != vid).getLast?).map (fun v => v.id)) ∧
    (a.selected_id ≠ some vid →
      (delete_variant_in_asset a vid).1.selected_id = a.selected_id) := by
  obtain ⟨w, hw, hwid⟩ := hmem
  have hne : a.variants ≠ [] := by
    intro h
    rw [h] at hw
    simp at hw
  have hlt : (a.variants.filter fun v => v.id != vid).length < a.variants.length := by
    rw [List.length_filter_lt_length_iff_exists]
    exact ⟨w, hw, by simp [hwid]⟩
  unfold delete_variant_in_asset
  rw [if_neg hne, if_pos hlt]
  refine ⟨rfl, rfl, ?_, ?_⟩
  · intro hsel
    simp only
    rw [if_pos (by rw [hsel]; exact beq_self_eq_true _)]
  · intro hsel
    simp only
    rw [if_neg (by simp only [beq_iff_eq]; exact hsel)]

/-- Witness for the amended C2 on `poolThree`. -/
theorem delete_variant_spec_witness :
    (delete_variant_in_asset poolThree "b").2 = true ∧
    (delete_variant_in_asset poolThree "b").1.variants =
      poolThree.variants.filter (fun v => v.id != "b") ∧
    (delete_variant_in_asset poolThree "b").1.selected_id =
      ((poolThree.variants.filter fun v => v.id != "b").getLast?).map (fun v => v.id) := by
  have h := delete_variant_spec poolThree "b" ⟨⟨"b", "b", 2, false, false⟩, by decide, rfl⟩
  exact ⟨h.1, h.2.1, h.2.2.1 (by decide)⟩

/-- Embeds `GenerationStatus` (models.py). -/
inductive GenerationStatus where
  | pending
  | processing
  | completed
  | failed
deriving DecidableEq, Repr

/-- Embeds the `Character` fields read or written by the asset-variant
engine (models.py): the three stage pools, the legacy mirror URL fields,
the per-stage timestamps, the derived consistency flag and the status.
Purely descriptive fields (name, description, age, voice, the v2
`AssetUnit` containers, and so on) are not consulted by the embedded
operations and are omitted. -/
structure Character where
  id : String
  full_body_asset : ImageAsset
  three_view_asset : ImageAsset
  headshot_asset : ImageAsset
  full_body_image_url : Option String
  three_view_image_url : Option String
  headshot_image_url : Option String
  image_url : Option String
  avatar_url : Option String
  full_body_updated_at : Int
  three_view_updated_at : Int
  headshot_updated_at : Int
  is_consistent : Bool
  status : GenerationStatus
deriving DecidableEq, Repr

/-- Embeds the `Scene` fields used by the variant operations (models.py). -/
structure Scene where
  id : String
  image_url : Option String
  image_asset : ImageAsset
  status : GenerationStatus
deriving DecidableEq, Repr

/-- Embeds the `VideoTask` fields relevant to the snapshot claims
(models.py): the id, the recorded source image reference, the status and
the result location.  The remaining request parameters (prompt,
duration, seed, resolution, audio settings) are copied verbatim at
creation and never consulted by the embedded operations. -/
structure VideoTask where
  id : String
  image_url : String
  status : String
  video_url : Option String
deriving DecidableEq, Repr

/-- Embeds the parts of `Script` (models.py) the claims range over:
characters, scenes and the project-wide video-task list. -/
structure Script where
  characters : List Character
  scenes : List Scene
  video_tasks : List VideoTask
deriving DecidableEq, Repr

/-- The `generation_type` selector used by the variant endpoints. -/
inductive StageSel where
  | full_body
  | three_view
  | headshot
deriving DecidableEq, Repr

/-- The `asset_type` selector.  The `prop` and `storyboard_frame`
branches of the pipeline are structurally identical to the `scene`
branch and are not needed by the claims. -/
inductive AssetType where
  | character
  | scene
deriving DecidableEq, Repr

/-- In-place mutation of the first list element matched by `next(...)`
in the Python code. -/
def modifyFirst (p : α → Bool) (f : α → α) : List α → List α
  | [] => []
  | x :: t => if p x then f x :: t else x :: modifyFirst p f t

/-- Embeds the character branch of `select_asset_variant` (pipeline.py
lines 1141-1176): stage dispatch on `generation_type`, with the legacy
fallback searching full-body, then three-view, then headshot, and the
legacy URL mirrors updated when a variant is found. -/
def select_variant_in_character (c : Character) (vid : String) (g : Option StageSel) :
    Character :=
  match g with
  | some .full_body =>
    match select_variant_in_asset c.full_body_asset vid with
    | (a, some v) =>
      { c with full_body_asset := a, full_body_image_url := some v.url,
               image_url := some v.url }
    | (a, none) => { c with full_body_asset := a }
  | some .three_view =>
    match select_variant_in_asset c.three_view_asset vid with
    | (a, some v) =>
      { c with three_view_asset := a, three_view_image_url := some v.url }
    | (a, none) => { c with three_view_asset := a }
  | some .headshot =>
    match select_variant_in_asset c.headshot_asset vid with
    | (a, some v) =>
      { c with headshot_asset := a, headshot_image_url := some v.url,
               avatar_url := some v.url }
    | (a, none) => { c with headshot_asset := a }
  | none =>
    match select_variant_in_asset c.full_body_asset vid with
    | (a, some v) =>
      { c with full_body_asset := a, full_body_image_url := some v.url,
               image_url := some v.url }
    | (a1, none) =>
      match select_variant_in_asset c.three_view_asset vid with
      | (a, some v) =>
        { c with full_body_asset := a1, three_view_asset := a,
                 three_view_image_url := some v.url }
      | (a2, none) =>
        match select_variant_in_asset c.headshot_asset vid with
        | (a, some v) =>
          { c with full_body_asset := a1, three_view_asset := a2, headshot_asset := a,
                   headshot_image_url := some v.url, avatar_url := some v.url }
        | (a3, none) =>
          { c with full_body_asset := a1, three_view_asset := a2, headshot_asset := a3 }

/-- Embeds the scene branch of `select_asset_variant` (pipeline.py lines
1178-1183). -/
def select_variant_in_scene (s : Scene) (vid : String) : Scene :=
  match select_variant_in_asset s.image_asset vid with
  | (a, some v) => { s with image_asset := a, image_url := some v.url }
  | (a, none) => { s with image_asset := a }

/-- Legacy-URL resync after a deletion (pipeline.py lines 1228-1233):
follow the pool selection, or clear the mirror. -/
def resyncUrl (a : ImageAsset) : Option String :=
  match a.selected_id with
  | some sid =>
    match a.variants.find? (fun v => v.id == sid) with
    | some v => some v.url
    | none => none
  | none => none

/-- Embeds the character branch of `delete_asset_variant` (pipeline.py
lines 1216-1244): try full-body, then three-view, then headshot, and
resync the corresponding legacy URL mirror after a successful delete.
(The full-body branch of the source resyncs `image_url`.) -/
def delete_variant_in_character (c : Character) (vid : String) : Character :=
  match delete_variant_in_asset c.full_body_asset vid with
  | (a, true) => { c with full_body_asset := a, image_url := resyncUrl a }
  | (_, false) =>
    match delete_variant_in_asset c.three_view_asset vid with
    | (a, true) => { c with three_view_asset := a, three_view_image_url := resyncUrl a }
    | (_, false) =>
      match delete_variant_in_asset c.headshot_asset vid with
      | (a, true) => { c with headshot_asset := a, headshot_image_url := resyncUrl a }
      | (_, false) => c

/-- Embeds the scene branch of `delete_asset_variant` (pipeline.py lines
1246-1253). -/
def delete_variant_in_scene (s : Scene) (vid : String) : Scene :=
  match delete_variant_in_asset s.image_asset vid with
  | (a, true) => { s with image_asset := a, image_url := resyncUrl a }
  | (_, false) => s

/-- Embeds the character branch of `toggle_variant_favorite`
(pipeline.py lines 1318-1331): stage dispatch, with the legacy fallback
trying the three pools in order (the Python `or` chain short-circuits). -/
def favorite_variant_in_character (c : Character) (vid : String) (fav : Bool)
    (g : Option StageSel) : Character × Bool :=
  match g with
  | some .full_body =>
    match set_variant_favorite c.full_body_asset vid fav with
    | (a, found) => ({ c with full_body_asset := a }, found)
  | some .three_view =>
    match set_variant_favorite c.three_view_asset vid fav with
    | (a, found) => ({ c with three_view_asset := a }, found)
  | some .headshot =>
    match set_variant_favorite c.headshot_asset vid fav with
    | (a, found) => ({ c with headshot_asset := a }, found)
  | none =>
    match set_variant_favorite c.full_body_asset vid fav with
    | (a, true) => ({ c with full_body_asset := a }, true)
    | (_, false) =>
      match set_variant_favorite c.three_view_asset vid fav with
      | (a, true) => ({ c with three_view_asset := a }, true)
      | (_, false) =>
        match set_variant_favorite c.headshot_asset vid fav with
        | (a, found) => ({ c with headshot_asset := a }, found)

/-- Embeds the scene branch of `toggle_variant_favorite` (pipeline.py
lines 1333-1336). -/
def favorite_variant_in_scene (s : Scene) (vid : String) (fav : Bool) : Scene × Bool :=
  match set_variant_favorite s.image_asset vid fav with
  | (a, found) => ({ s with image_asset := a }, found)

/-- The script-level effect of `select_asset_variant` on the targeted
project: mutate the first asset whose id matches, exactly as the Python
`next(...)` lookup mutates the found object in place. -/
def select_asset_variant_core (s : Script) (asset_id : String) (ty : AssetType)
    (vid : String) (g : Option StageSel) : Script :=
  match ty with
  | .character =>
    { s with characters :=
        (modifyFirst (fun c => c.id == asset_id)
          (fun c => select_variant_in_character c vid g) s.characters) }
  | .scene =>
    { s with scenes :=
        (modifyFirst (fun x => x.id == asset_id)
          (fun x => select_variant_in_scene x vid) s.scenes) }

/-- The script-level effect of `delete_asset_variant`. -/
def delete_asset_variant_core (s : Script) (asset_id : String) (ty : AssetType)
    (vid : String) : Script :=
  match ty with
  | .character =>
    { s with characters :=
        (modifyFirst (fun c => c.id == asset_id)
          (fun c => delete_variant_in_character c vid) s.characters) }
  | .scene =>
    { s with scenes :=
        (modifyFirst (fun x => x.id == asset_id)
          (fun x => delete_variant_in_scene x vid) s.scenes) }

/-- The script-level effect of `toggle_variant_favorite`. -/
def favorite_asset_variant_core (s : Script) (asset_id : String) (ty : AssetType)
    (vid : String) (fav : Bool) (g : Option StageSel) : Script :=
  match ty with
  | .character =>
    { s with characters :=
        (modifyFirst (fun c => c.id == asset_id)
          (fun c => (favorite_variant_in_character c vid fav g).1) s.characters) }
  | .scene =>
    { s with scenes :=
        (modifyFirst (fun x => x.id == asset_id)
          (fun x => (favorite_variant_in_scene x vid fav).1) s.scenes) }

/-- What `_save_data` (pipeline.py lines 59-67) records: the write is
attempted under the lock and any exception is caught and logged. -/
structure SaveLog where
  errorLogged : Option String
deriving DecidableEq, Repr

/-- Embeds `_save_data` (pipeline.py lines 59-67).  The file write is
abstracted as its outcome `writeOutcome`; the `except` block logs the
error and the function returns normally in both cases — no exception
escapes. -/
def save_data (writeOutcome : Except String Unit) : SaveLog :=
  match writeOutcome with
  | .ok _ => { errorLogged := none }
  | .error e => { errorLogged := some e }

/-- Replacement of one entry of the in-memory project map. -/
def replaceEntry (scripts : List (String × Script)) (k : String) (s : Script) :
    List (String × Script) :=
  scripts.map fun e => if e.1 == k then (e.1, s) else e

/-- Embeds `select_asset_variant` (pipeline.py lines 1135-1208) at the
pipeline level: look up the script (raising `ValueError` when the
project id is unknown), mutate the found asset — silently doing nothing
when the asset or the variant id is absent — then `_save_data` and
return the script.  `writeOutcome` abstracts the JSON file write. -/
def select_asset_variant (scripts : List (String × Script)) (script_id asset_id : String)
    (ty : AssetType) (vid : String) (g : Option StageSel)
    (writeOutcome : Except String Unit) :
    Except String (List (String × Script)) × SaveLog :=
  match scripts.lookup script_id with
  | none => (.error "Script not found", { errorLogged := none })
  | some script =>
    (.ok (replaceEntry scripts script_id
        (select_asset_variant_core script asset_id ty vid g)),
      save_data writeOutcome)

/-- One project-level variant mutation, as dispatched by the API layer. -/
inductive ScriptOp where
  | selectVariant (asset_id : String) (ty : AssetType) (vid : String) (g : Option StageSel)
  | deleteVariant (asset_id : String) (ty : AssetType) (vid : String)
  | favoriteVariant (asset_id : String) (ty : AssetType) (vid : String) (fav : Bool)
      (g : Option StageSel)
deriving DecidableEq, Repr

/-- Applies one project-level variant mutation. -/
def applyScriptOp (s : Script) : ScriptOp → Script
  | .selectVariant aid ty vid g => select_asset_variant_core s aid ty vid g
  | .deleteVariant aid ty vid => delete_asset_variant_core s aid ty vid
  | .favoriteVariant aid ty vid fav g => favorite_asset_variant_core s aid ty vid fav g

/-- Applies a sequence of project-level variant mutations. -/
def applyScriptOps (s : Script) (ops : List ScriptOp) : Script :=
  ops.foldl applyScriptOp s

/-- Embeds `create_video_task` (pipeline.py lines 498-557).  The file
copy into `output/video_inputs` is abstracted by `snapshotResult`: `some
p` is the stable relative path produced by a successful copy, `none`
covers the remote-URL, missing-file and copy-failure paths, all of which
fall back to the original reference.  The new task is appended to the
project-wide task list with status `pending`. -/
def create_video_task (s : Script) (task_id image_url : String)
    (snapshotResult : Option String) : Script × String :=
  let snapshot_url := match snapshotResult with
    | some p => p
    | none => image_url
  ({ s with video_tasks := (s.video_tasks ++
      [{ id := task_id, image_url := snapshot_url, status := "pending",
         video_url := none }]) }, task_id)

/-- A scene holding one selectable variant `x`. -/
def sceneOne : Scene :=
  { id := "s1", image_url := none,
    image_asset := { selected_id := some "x",
                     variants := [⟨"x", "x.png", 1, false, false⟩] },
    status := .pending }

/-- A project containing only `sceneOne`. -/
def scriptOne : Script := { characters := [], scenes := [sceneOne], video_tasks := [] }

/-- A project map with the single project `p1`. -/
def scriptsOne : List (String × Script) := [("p1", scriptOne)]

/-- Counterexample for C3 as stated: selecting a variant id that is
absent from the pool does not fail with NotFound — the pipeline call
returns success and the state is unchanged. -/
theorem select_missing_counterexample :
    select_asset_variant scriptsOne "p1" "s1" .scene "missing" none (.ok ()) =
      (.ok scriptsOne, { errorLogged := none }) := by
  rfl

/-- C3 (amended): selecting an existing variant id sets `selected_id` to
that id; selecting an absent id leaves the pool unchanged and returns
`None` from the helper, and the pipeline operation still reports success
whenever the project id exists — absence of the variant raises no
error. -/
theorem select_variant_behavior :
    (∀ (a : ImageAsset) (vid : String),
      ((∃ v ∈ a.variants, v.id = vid) →
        (select_variant_in_asset a vid).1.selected_id = some vid) ∧
      ((∀ v ∈ a.variants, v.id ≠ vid) → select_variant_in_asset a vid = (a, none))) ∧
    (∀ (scripts : List (String × Script)) (sid aid : String) (ty : AssetType)
        (vid : String) (g : Option StageSel) (w : Except String Unit),
      (scripts.lookup sid).isSome = true →
        (select_asset_variant scripts sid aid ty vid g w).1.isOk = true) := by
  constructor
  · intro a vid
    constructor
    · rintro ⟨v, hv, hvid⟩
      unfold select_variant_in_asset
      rw [if_neg (by intro h; rw [h] at hv; simp at hv)]
      cases hf : a.variants.find? (fun u => u.id == vid) with
      | some u => rfl
      | none =>
        exfalso
        have hnone := List.find?_eq_none.mp hf v hv
        simp [hvid] at hnone
    · intro habs
      unfold select_variant_in_asset
      by_cases he : a.variants = []
      · rw [if_pos he]
      · rw [if_neg he]
        cases hf : a.variants.find? (fun u => u.id == vid) with
        | some u =>
          exfalso
          have hu := List.mem_of_find?_eq_some hf
          have hb : u.id = vid := by
            have := List.find?_some hf
            simpa using this
          exact habs u hu hb
        | none => rfl
  · intro scripts sid aid ty vid g w hs
    unfold select_asset_variant
    cases hl : scripts.lookup sid with
    | none =>
      rw [hl] at hs
      simp at hs
    | some sc => rfl

/-- Witness for the amended C3: a present id is selected; the pipeline
call on an existing project reports success. -/
theorem select_variant_behavior_witness :
    (select_variant_in_asset
        { selected_id := none, variants := [⟨"x", "x.png", 1, false, false⟩] }
        "x").1.selected_id = some "x" ∧
    (select_asset_variant scriptsOne "p1" "s1" .scene "x" none (.ok ())).1.isOk = true := by
  constructor
  · exact (select_variant_behavior.1 _ "x").1 ⟨⟨"x", "x.png", 1, false, false⟩, by decide, rfl⟩
  · exact select_variant_behavior.2 scriptsOne "p1" "s1" .scene "x" none (.ok ()) (by decide)

/-- Counterexample for C8 as stated: when the persistence write fails,
the pipeline operation still reports success to the caller — the
failure is only logged inside `_save_data`, not surfaced. -/
theorem save_failure_counterexample :
    (select_asset_variant scriptsOne "p1" "s1" .scene "x" none
        (.error "disk full")).1.isOk = true ∧
    save_data (.error "disk full") = { errorLogged := some "disk full" } := by
  decide

/-- C8 (amended): a persistence failure is caught and logged inside
`_save_data` and is never surfaced: the pipeline operation returns
exactly the same successful result as when the write succeeds, so the
mutated in-memory state remains the source of truth for the caller. -/
theorem save_failure_swallowed (scripts : List (String × Script))
    (sid aid : String) (ty : AssetType) (vid : String) (g : Option StageSel)
    (e : String) :
    (select_asset_variant scripts sid aid ty vid g (.error e)).1 =
      (select_asset_variant scripts sid aid ty vid g (.ok ())).1 ∧
    (save_data (.error e)).errorLogged = some e := by
  constructor
  · unfold select_asset_variant
    cases scripts.lookup sid <;> rfl
  · rfl

/-- Witness for the amended C8 at concrete arguments. -/
theorem save_failure_swallowed_witness :
    (select_asset_variant scriptsOne "p1" "s1" .scene "x" none (.error "disk full")).1 =
      (select_asset_variant scriptsOne "p1" "s1" .scene "x" none (.ok ())).1 ∧
    (save_data (.error "disk full")).errorLogged = some "disk full" :=
  save_failure_swallowed scriptsOne "p1" "s1" .scene "x" none "disk full"

lemma applyScriptOp_video_tasks (s : Script) (op : ScriptOp) :
    (applyScriptOp s op).video_tasks = s.video_tasks := by
  cases op with
  | selectVariant aid ty vid g => cases ty <;> rfl
  | deleteVariant aid ty vid => cases ty <;> rfl
  | favoriteVariant aid ty vid fav g => cases ty <;> rfl

lemma applyScriptOps_video_tasks (ops : List ScriptOp) :
    ∀ s : Script, (applyScriptOps s ops).video_tasks = s.video_tasks := by
  induction ops with
  | nil => intro s; rfl
  | cons op rest ih =>
    intro s
    have h1 : applyScriptOps s (op :: rest) = applyScriptOps (applyScriptOp s op) rest := rfl
    rw [h1, ih, applyScriptOp_video_tasks]

lemma find?_append_of_none (p : VideoTask → Bool) (l1 l2 : List VideoTask)
    (h : ∀ x ∈ l1, p x = false) : (l1 ++ l2).find? p = l2.find? p := by
  rw [List.find?_append, List.find?_eq_none.mpr (fun x hx => by rw [h x hx]; simp)]
  rfl

/-- C9: the source reference recorded by `create_video_task` is fixed at
creation: after any later sequence of variant mutations (selection,
deletion, favoriting — including deleting the source variant), looking
the task up in the project-wide task list still yields the snapshot URL
chosen at creation time. -/
theorem video_task_snapshot_immutable (s : Script) (task_id image_url : String)
    (snap : Option String) (ops : List ScriptOp)
    (hfresh : ∀ t ∈ s.video_tasks, t.id ≠ task_id) :
    ((applyScriptOps (create_video_task s task_id image_url snap).1 ops).video_tasks.find?
        (fun t => t.id == task_id)) =
      some { id := task_id,
             image_url := match snap with | some p => p | none => image_url,
             status := "pending", video_url := none } := by
  rw [applyScriptOps_video_tasks]
  unfold create_video_task
  simp only
  rw [find?_append_of_none _ _ _
    (fun t ht => by
      have hne := hfresh t ht
      exact beq_eq_false_iff_ne.mpr hne)]
  have hself : (task_id == task_id) = true := beq_self_eq_true _
  simp [List.find?, hself]

/-- Witness for C9 on a concrete project: create a task snapshotting the
scene variant `x`, then delete that variant; the task still records the
snapshot path. -/
theorem video_task_snapshot_immutable_witness :
    ((applyScriptOps
        (create_video_task scriptOne "t1" "frames/f1.png" (some "video_inputs/t1.png")).1
        [ScriptOp.deleteVariant "s1" .scene "x"]).video_tasks.find?
        (fun t => t.id == "t1")) =
      some { id := "t1", image_url := "video_inputs/t1.png", status := "pending",
             video_url := none } :=
  video_task_snapshot_immutable scriptOne "t1" "frames/f1.png"
    (some "video_inputs/t1.png") [ScriptOp.deleteVariant "s1" .scene "x"] (by decide)

/-- The `generation_type` argument of `AssetGenerator.generate_character`
(assets.py line 54). -/
inductive GenType where
  | all
  | full_body
  | three_view
  | headshot
deriving DecidableEq, Repr

/-- The errors raised by `generate_character`: the zero-success
`RuntimeError` (assets.py lines 205-206, 351-352, 427-428) and the
missing-reference `ValueError` (assets.py lines 258-259). -/
inductive GenError where
  | generationFailed
  | preconditionFailed
deriving DecidableEq, Repr

/-- One iteration of the full-body batch loop (assets.py lines 130-185)
on a successful (`some v`) or failed (`none`, the caught exception)
backend call: prepend the variant, run retention cleanup, auto-select
and sync the legacy URL when nothing is selected or `batch_size == 1`,
and count the success.  The backend call itself, the prompt bookkeeping
and the optional OSS upload (a deployment-configured no-op) are outside
the state tracked here. -/
def full_body_iter (batchSize : Nat) (acc : Character × Nat) (o : Option ImageVariant) :
    Character × Nat :=
  match o with
  | none => acc
  | some v =>
    let a1 := cleanup_old_variants
      { acc.1.full_body_asset with variants := v :: acc.1.full_body_asset.variants }
    if a1.selected_id.isNone || batchSize == 1 then
      ({ acc.1 with full_body_asset := { a1 with selected_id := some v.id },
                    full_body_image_url := some v.url }, acc.2 + 1)
    else ({ acc.1 with full_body_asset := a1 }, acc.2 + 1)

/-- The full-body batch loop: fold the per-call outcomes, counting
successes (assets.py lines 128-201). -/
def run_full_body_batch (c : Character) (outcomes : List (Option ImageVariant)) :
    Character × Nat :=
  outcomes.foldl (full_body_iter outcomes.length) (c, 0)

/-- One iteration of the three-view batch loop (assets.py lines
293-345); on auto-select the legacy mirrors `three_view_image_url` and
`image_url` are synced. -/
def three_view_iter (batchSize : Nat) (acc : Character × Nat) (o : Option ImageVariant) :
    Character × Nat :=
  match o with
  | none => acc
  | some v =>
    let a1 := cleanup_old_variants
      { acc.1.three_view_asset with variants := v :: acc.1.three_view_asset.variants }
    if a1.selected_id.isNone || batchSize == 1 then
      ({ acc.1 with three_view_asset := { a1 with selected_id := some v.id },
                    three_view_image_url := some v.url, image_url := some v.url }, acc.2 + 1)
    else ({ acc.1 with three_view_asset := a1 }, acc.2 + 1)

/-- The three-view batch loop (assets.py lines 292-347). -/
def run_three_view_batch (c : Character) (outcomes : List (Option ImageVariant)) :
    Character × Nat :=
  outcomes.foldl (three_view_iter outcomes.length) (c, 0)

/-- One iteration of the headshot batch loop (assets.py lines 369-421);
on auto-select the legacy mirrors `headshot_image_url` and `avatar_url`
are synced. -/
def headshot_iter (batchSize : Nat) (acc : Character × Nat) (o : Option ImageVariant) :
    Character × Nat :=
  match o with
  | none => acc
  | some v =>
    let a1 := cleanup_old_variants
      { acc.1.headshot_asset with variants := v :: acc.1.headshot_asset.variants }
    if a1.selected_id.isNone || batchSize == 1 then
      ({ acc.1 with headshot_asset := { a1 with selected_id := some v.id },
                    headshot_image_url := some v.url, avatar_url := some v.url }, acc.2 + 1)
    else ({ acc.1 with headshot_asset := a1 }, acc.2 + 1)

/-- The headshot batch loop (assets.py lines 368-423). -/
def run_headshot_batch (c : Character) (outcomes : List (Option ImageVariant)) :
    Character × Nat :=
  outcomes.foldl (headshot_iter outcomes.length) (c, 0)

/-- The reference image resolution of assets.py lines 213-218: the
selected full-body variant URL, falling back to the legacy mirror. -/
def current_full_body_url (c : Character) : Option String :=
  match c.full_body_asset.selected_id with
  | some sid =>
    match c.full_body_asset.variants.find? (fun v => v.id == sid) with
    | some v => some v.url
    | none => c.full_body_image_url
  | none => c.full_body_image_url

/-- `next((v for v in ... if getattr(v, "is_uploaded_source", False)), None)`. -/
def find_uploaded (a : ImageAsset) : Option ImageVariant :=
  a.variants.find? (fun v => v.is_uploaded_source)

/-- The reverse-generation reference of assets.py lines 220-256: when no
full-body URL resolves, try the uploaded variant of the other derived
stage, then of the stage being generated (for non-derived types the
`else` arm of line 248 inspects the headshot pool). -/
def uploaded_reference_url (g : GenType) (c : Character) : Option String :=
  if (current_full_body_url c) = none then
    match
      (if g = .three_view then (find_uploaded c.headshot_asset).map (fun v => v.url)
       else if g = .headshot then (find_uploaded c.three_view_asset).map (fun v => v.url)
       else none) with
    | some u => some u
    | none =>
      ((find_uploaded
          (if g = .three_view then c.three_view_asset else c.headshot_asset)).map
        (fun v => v.url))
  else none

/-- Stage 1 of `generate_character` (assets.py lines 69-210): the
full-body batch, the `updated_at` stamp, the zero-success raise, and the
downstream-inconsistency mark for a full-body-only run.  Errors carry
the mutated character, mirroring Python exception semantics. -/
def phase_full_body (g : GenType) (outcomes : List (Option ImageVariant)) (t : Int)
    (c : Character) : Except (Character × GenError) Character :=
  if g = .all ∨ g = .full_body then
    if (run_full_body_batch c outcomes).2 = 0 then
      .error ({ (run_full_body_batch c outcomes).1 with full_body_updated_at := t },
        .generationFailed)
    else if g = .full_body then
      .ok { (run_full_body_batch c outcomes).1 with
              full_body_updated_at := t,
              is_consistent := false }
    else .ok { (run_full_body_batch c outcomes).1 with full_body_updated_at := t }
  else .ok c

/-- The derived-stage precondition (assets.py lines 258-259). -/
def phase_precondition (g : GenType) (c : Character) :
    Except (Character × GenError) Character :=
  if (g = .three_view ∨ g = .headshot) ∧ (current_full_body_url c) = none ∧
      (uploaded_reference_url g c) = none then
    .error (c, .preconditionFailed)
  else .ok c

/-- Stage 2 of `generate_character` (assets.py lines 277-352). -/
def phase_three_view (g : GenType) (outcomes : List (Option ImageVariant)) (t : Int)
    (c : Character) : Except (Character × GenError) Character :=
  if g = .all ∨ g = .three_view then
    if (run_three_view_batch c outcomes).2 = 0 then
      .error ({ (run_three_view_batch c outcomes).1 with three_view_updated_at := t },
        .generationFailed)
    else .ok { (run_three_view_batch c outcomes).1 with three_view_updated_at := t }
  else .ok c

/-- Stage 3 of `generate_character` (assets.py lines 355-428). -/
def phase_headshot (g : GenType) (outcomes : List (Option ImageVariant)) (t : Int)
    (c : Character) : Except (Character × GenError) Character :=
  if g = .all ∨ g = .headshot then
    if (run_headshot_batch c outcomes).2 = 0 then
      .error ({ (run_headshot_batch c outcomes).1 with headshot_updated_at := t },
        .generationFailed)
    else .ok { (run_headshot_batch c outcomes).1 with headshot_updated_at := t }
  else .ok c

/-- The final consistency update (assets.py lines 430-435). -/
def phase_consistency (g : GenType) (c : Character) : Character :=
  if g = .all then { c with is_consistent := true }
  else if c.three_view_updated_at ≥ c.full_body_updated_at ∧
      c.headshot_updated_at ≥ c.full_body_updated_at then
    { c with is_consistent := true }
  else c

/-- Embeds `AssetGenerator.generate_character` (assets.py lines 54-444).
Backend outcomes are given per stage (`some v` success producing `v`,
`none` a caught per-iteration failure) and the per-stage `time.time()`
stamps as `tFb`, `tTv`, `tHs`.  The `except` block of lines 439-442 sets
status `failed` and re-raises; on success status becomes `completed`. -/
def generate_character (c : Character) (g : GenType)
    (fbOut tvOut hsOut : List (Option ImageVariant)) (tFb tTv tHs : Int) :
    Character × Except GenError Unit :=
  match phase_full_body g fbOut tFb { c with status := .processing } with
  | .error (ce, e) => ({ ce with status := .failed }, .error e)
  | .ok c1 =>
    match phase_precondition g c1 with
    | .error (ce, e) => ({ ce with status := .failed }, .error e)
    | .ok c2 =>
      match phase_three_view g tvOut tTv c2 with
      | .error (ce, e) => ({ ce with status := .failed }, .error e)
      | .ok c3 =>
        match phase_headshot g hsOut tHs c3 with
        | .error (ce, e) => ({ ce with status := .failed }, .error e)
        | .ok c4 => ({ phase_consistency g c4 with status := .completed }, .ok ())

lemma foldl_iter_all_none (f : Character × Nat → Option ImageVariant → Character × Nat)
    (hf : ∀ acc, f acc none = acc) :
    ∀ (l : List (Option ImageVariant)) (acc : Character × Nat),
      (∀ o ∈ l, o = none) → l.foldl f acc = acc := by
  intro l
  induction l with
  | nil => intro acc _; rfl
  | cons o rest ih =>
    intro acc h
    rw [List.foldl_cons, h o (List.mem_cons_self _ _), hf]
    exact ih acc (fun x hx => h x (List.mem_cons_of_mem _ hx))

lemma foldl_iter_count (f : Character × Nat → Option ImageVariant → Character × Nat)
    (hnone : ∀ acc, f acc none = acc)
    (hfst : ∀ acc v, ∃ c1, f acc (some v) = (c1, acc.2 + 1)) :
    ∀ (l : List (Option ImageVariant)) (acc : Character × Nat),
      (l.foldl f acc).2 = acc.2 + l.countP (fun o => o.isSome) := by
  intro l
  induction l with
  | nil => intro acc; simp
  | cons o rest ih =>
    intro acc
    rw [List.foldl_cons, List.countP_cons]
    cases o with
    | none =>
      rw [hnone, ih]
      simp [Option.isSome]
    | some v =>
      rcases hfst acc v with ⟨c1, hc1⟩
      rw [hc1, ih]
      simp [Option.isSome]
      omega

lemma foldl_iter_proj {γ : Type} (f : Character × Nat → Option ImageVariant → Character × Nat)
    (proj : Character → γ)
    (h : ∀ acc o, proj ((f acc o).1) = proj acc.1) :
    ∀ (l : List (Option ImageVariant)) (acc : Character × Nat),
      proj ((l.foldl f acc).1) = proj acc.1 := by
  intro l
  induction l with
  | nil => intro acc; rfl
  | cons o rest ih =>
    intro acc
    rw [List.foldl_cons, ih, h]

lemma full_body_iter_shape (n : Nat) (acc : Character × Nat) (v : ImageVariant) :
    ∃ c1, full_body_iter n acc (some v) = (c1, acc.2 + 1) := by
  unfold full_body_iter
  dsimp only
  split
  · exact ⟨_, rfl⟩
  · exact ⟨_, rfl⟩

lemma three_view_iter_shape (n : Nat) (acc : Character × Nat) (v : ImageVariant) :
    ∃ c1, three_view_iter n acc (some v) = (c1, acc.2 + 1) := by
  unfold three_view_iter
  dsimp only
  split
  · exact ⟨_, rfl⟩
  · exact ⟨_, rfl⟩

lemma headshot_iter_shape (n : Nat) (acc : Character × Nat) (v : ImageVariant) :
    ∃ c1, headshot_iter n acc (some v) = (c1, acc.2 + 1) := by
  unfold headshot_iter
  dsimp only
  split
  · exact ⟨_, rfl⟩
  · exact ⟨_, rfl⟩

lemma run_full_body_batch_count (c : Character) (outs : List (Option ImageVariant)) :
    (run_full_body_batch c outs).2 = outs.countP (fun o => o.isSome) := by
  unfold run_full_body_batch
  rw [foldl_iter_count (full_body_iter outs.length) (fun acc => rfl)
    (full_body_iter_shape outs.length) outs (c, 0)]
  simp

lemma run_three_view_batch_count (c : Character) (outs : List (Option ImageVariant)) :
    (run_three_view_batch c outs).2 = outs.countP (fun o => o.isSome) := by
  unfold run_three_view_batch
  rw [foldl_iter_count (three_view_iter outs.length) (fun acc => rfl)
    (three_view_iter_shape outs.length) outs (c, 0)]
  simp

lemma run_headshot_batch_count (c : Character) (outs : List (Option ImageVariant)) :
    (run_headshot_batch c outs).2 = outs.countP (fun o => o.isSome) := by
  unfold run_headshot_batch
  rw [foldl_iter_count (headshot_iter outs.length) (fun acc => rfl)
    (headshot_iter_shape outs.length) outs (c, 0)]
  simp

lemma generate_character_ok_eq (c : Character) (g : GenType)
    (fbOut tvOut hsOut : List (Option ImageVariant)) (tFb tTv tHs : Int)
    (c1 c2 c3 c4 : Character)
    (h1 : phase_full_body g fbOut tFb { c with status := .processing } = .ok c1)
    (h2 : phase_precondition g c1 = .ok c2)
    (h3 : phase_three_view g tvOut tTv c2 = .ok c3)
    (h4 : phase_headshot g hsOut tHs c3 = .ok c4) :
    generate_character c g fbOut tvOut hsOut tFb tTv tHs =
      ({ phase_consistency g c4 with status := .completed }, .ok ()) := by
  simp only [generate_character, h1, h2, h3, h4]

lemma generate_character_err1 (c : Character) (g : GenType)
    (fbOut tvOut hsOut : List (Option ImageVariant)) (tFb tTv tHs : Int)
    (ce : Character) (e : GenError)
    (h1 : phase_full_body g fbOut tFb { c with status := .processing } = .error (ce, e)) :
    generate_character c g fbOut tvOut hsOut tFb tTv tHs =
      ({ ce with status := .failed }, .error e) := by
  simp only [generate_character, h1]

lemma generate_character_err2 (c : Character) (g : GenType)
    (fbOut tvOut hsOut : List (Option ImageVariant)) (tFb tTv tHs : Int)
    (c1 ce : Character) (e : GenError)
    (h1 : phase_full_body g fbOut tFb { c with status := .processing } = .ok c1)
    (h2 : phase_precondition g c1 = .error (ce, e)) :
    generate_character c g fbOut tvOut hsOut tFb tTv tHs =
      ({ ce with status := .failed }, .error e) := by
  simp only [generate_character, h1, h2]

lemma generate_character_err3 (c : Character) (g : GenType)
    (fbOut tvOut hsOut : List (Option ImageVariant)) (tFb tTv tHs : Int)
    (c1 c2 ce : Character) (e : GenError)
    (h1 : phase_full_body g fbOut tFb { c with status := .processing } = .ok c1)
    (h2 : phase_precondition g c1 = .ok c2)
    (h3 : phase_three_view g tvOut tTv c2 = .error (ce, e)) :
    generate_character c g fbOut tvOut hsOut tFb tTv tHs =
      ({ ce with status := .failed }, .error e) := by
  simp only [generate_character, h1, h2, h3]

lemma generate_character_err4 (c : Character) (g : GenType)
    (fbOut tvOut hsOut : List (Option ImageVariant)) (tFb tTv tHs : Int)
    (c1 c2 c3 ce : Character) (e : GenError)
    (h1 : phase_full_body g fbOut tFb { c with status := .processing } = .ok c1)
    (h2 : phase_precondition g c1 = .ok c2)
    (h3 : phase_three_view g tvOut tTv c2 = .ok c3)
    (h4 : phase_headshot g hsOut tHs c3 = .error (ce, e)) :
    generate_character c g fbOut tvOut hsOut tFb tTv tHs =
      ({ ce with status := .failed }, .error e) := by
  simp only [generate_character, h1, h2, h3, h4]

/-- C6: for a single-stage generation call (full-body directly; a
derived stage under its resolvable-reference precondition): if every
backend call in the batch fails, the call raises `GenerationFailed`, the
entity status becomes `failed`, and the stage pool is unchanged; if at
least one call succeeds, the call returns normally and the status
becomes `completed` even when some calls failed. -/
theorem generation_batch_outcomes (c : Character)
    (outs tvOut hsOut : List (Option ImageVariant)) (tFb tTv tHs : Int) :
    (((∀ o ∈ outs, o = none) →
      (generate_character c .full_body outs tvOut hsOut tFb tTv tHs).2 =
        .error .generationFailed ∧
      (generate_character c .full_body outs tvOut hsOut tFb tTv tHs).1.status =
        GenerationStatus.failed ∧
      (generate_character c .full_body outs tvOut hsOut tFb tTv tHs).1.full_body_asset =
        c.full_body_asset) ∧
    ((∃ o ∈ outs, o.isSome = true) →
      (generate_character c .full_body outs tvOut hsOut tFb tTv tHs).2 = .ok () ∧
      (generate_character c .full_body outs tvOut hsOut tFb tTv tHs).1.status =
        GenerationStatus.completed)) ∧
    (¬ (current_full_body_url c = none ∧ uploaded_reference_url .three_view c = none) →
      ((∀ o ∈ tvOut, o = none) →
        (generate_character c .three_view outs tvOut hsOut tFb tTv tHs).2 =
          .error .generationFailed ∧
        (generate_character c .three_view outs tvOut hsOut tFb tTv tHs).1.status =
          GenerationStatus.failed ∧
        (generate_character c .three_view outs tvOut hsOut tFb tTv tHs).1.three_view_asset =
          c.three_view_asset) ∧
      ((∃ o ∈ tvOut, o.isSome = true) →
        (generate_character c .three_view outs tvOut hsOut tFb tTv tHs).2 = .ok () ∧
        (generate_character c .three_view outs tvOut hsOut tFb tTv tHs).1.status =
          GenerationStatus.completed)) ∧
    (¬ (current_full_body_url c = none ∧ uploaded_reference_url .headshot c = none) →
      ((∀ o ∈ hsOut, o = none) →
        (generate_character c .headshot outs tvOut hsOut tFb tTv tHs).2 =
          .error .generationFailed ∧
        (generate_character c .headshot outs tvOut hsOut tFb tTv tHs).1.status =
          GenerationStatus.failed ∧
        (generate_character c .headshot outs tvOut hsOut tFb tTv tHs).1.headshot_asset =
          c.headshot_asset) ∧
      ((∃ o ∈ hsOut, o.isSome = true) →
        (generate_character c .headshot outs tvOut hsOut tFb tTv tHs).2 = .ok () ∧
        (generate_character c .headshot outs tvOut hsOut tFb tTv tHs).1.status =
          GenerationStatus.completed)) := by
  refine ⟨⟨?fa, ?fb⟩, fun hres => ⟨?ta, ?tb⟩, fun hres => ⟨?ha, ?hb⟩⟩
  case fa =>
    intro hall
    have hrun : run_full_body_batch { c with status := .processing } outs =
        ({ c with status := .processing }, 0) := by
      unfold run_full_body_batch
      exact foldl_iter_all_none _ (fun acc => rfl) outs _ hall
    simp only [generate_character, phase_full_body, hrun]
    simp
  case fb =>
    intro hsucc
    have hne0 : ¬ ((run_full_body_batch { c with status := .processing } outs).2 = 0) := by
      rw [run_full_body_batch_count]
      have hpos : 0 < outs.countP (fun o => o.isSome) := by
        rcases hsucc with ⟨o, ho, hs⟩
        exact List.countP_pos_iff.mpr ⟨o, ho, hs⟩
      omega
    simp only [generate_character, phase_full_body, phase_precondition, phase_three_view,
      phase_headshot, if_neg hne0]
    simp
  case ta =>
    intro hall
    have h1 : phase_full_body .three_view outs tFb { c with status := .processing } =
        .ok { c with status := .processing } := by
      unfold phase_full_body
      rw [if_neg (by decide :
        ¬ (GenType.three_view = GenType.all ∨ GenType.three_view = GenType.full_body))]
    have h2 : phase_precondition .three_view { c with status := .processing } =
        .ok { c with status := .processing } := by
      unfold phase_precondition
      rw [if_neg (fun hc => hres ⟨hc.2.1, hc.2.2⟩)]
    have hrun : run_three_view_batch { c with status := .processing } tvOut =
        ({ c with status := .processing }, 0) := by
      unfold run_three_view_batch
      exact foldl_iter_all_none _ (fun acc => rfl) tvOut _ hall
    have h3 : phase_three_view .three_view tvOut tTv { c with status := .processing } =
        .error ({ { c with status := .processing } with three_view_updated_at := tTv },
          .generationFailed) := by
      simp only [phase_three_view, hrun]
      simp
    rw [generate_character_err3 c .three_view outs tvOut hsOut tFb tTv tHs _ _ _ _
      h1 h2 h3]
    exact ⟨rfl, rfl, rfl⟩
  case tb =>
    intro hsucc
    have h1 : phase_full_body .three_view outs tFb { c with status := .processing } =
        .ok { c with status := .processing } := by
      unfold phase_full_body
      rw [if_neg (by decide :
        ¬ (GenType.three_view = GenType.all ∨ GenType.three_view = GenType.full_body))]
    have h2 : phase_precondition .three_view { c with status := .processing } =
        .ok { c with status := .processing } := by
      unfold phase_precondition
      rw [if_neg (fun hc => hres ⟨hc.2.1, hc.2.2⟩)]
    have hne0 : ¬ ((run_three_view_batch { c with status := .processing } tvOut).2 = 0) := by
      rw [run_three_view_batch_count]
      have hpos : 0 < tvOut.countP (fun o => o.isSome) := by
        rcases hsucc with ⟨o, ho, hs⟩
        exact List.countP_pos_iff.mpr ⟨o, ho, hs⟩
      omega
    have h3 : phase_three_view .three_view tvOut tTv { c with status := .processing } =
        .ok { (run_three_view_batch { c with status := .processing } tvOut).1 with
              three_view_updated_at := tTv } := by
      unfold phase_three_view
      rw [if_pos (Or.inr rfl), if_neg hne0]
    have h4 : phase_headshot .three_view hsOut tHs
        { (run_three_view_batch { c with status := .processing } tvOut).1 with
          three_view_updated_at := tTv } =
        .ok { (run_three_view_batch { c with status := .processing } tvOut).1 with
              three_view_updated_at := tTv } := by
      unfold phase_headshot
      rw [if_neg (by decide :
        ¬ (GenType.three_view = GenType.all ∨ GenType.three_view = GenType.headshot))]
    rw [generate_character_ok_eq c .three_view outs tvOut hsOut tFb tTv tHs _ _ _ _
      h1 h2 h3 h4]
    exact ⟨rfl, rfl⟩
  case ha =>
    intro hall
    have h1 : phase_full_body .headshot outs tFb { c with status := .processing } =
        .ok { c with status := .processing } := by
      unfold phase_full_body
      rw [if_neg (by decide :
        ¬ (GenType.headshot = GenType.all ∨ GenType.headshot = GenType.full_body))]
    have h2 : phase_precondition .headshot { c with status := .processing } =
        .ok { c with status := .processing } := by
      unfold phase_precondition
      rw [if_neg (fun hc => hres ⟨hc.2.1, hc.2.2⟩)]
    have h3 : phase_three_view .headshot tvOut tTv { c with status := .processing } =
        .ok { c with status := .processing } := by
      unfold phase_three_view
      rw [if_neg (by decide :
        ¬ (GenType.headshot = GenType.all ∨ GenType.headshot = GenType.three_view))]
    have hrun : run_headshot_batch { c with status := .processing } hsOut =
        ({ c with status := .processing }, 0) := by
      unfold run_headshot_batch
      exact foldl_iter_all_none _ (fun acc => rfl) hsOut _ hall
    have h4 : phase_headshot .headshot hsOut tHs { c with status := .processing } =
        .error ({ { c with status := .processing } with headshot_updated_at := tHs },
          .generationFailed) := by
      simp only [phase_headshot, hrun]
      simp
    rw [generate_character_err4 c .headshot outs tvOut hsOut tFb tTv tHs _ _ _ _ _
      h1 h2 h3 h4]
    exact ⟨rfl, rfl, rfl⟩
  case hb =>
    intro hsucc
    have h1 : phase_full_body .headshot outs tFb { c with status := .processing } =
        .ok { c with status := .processing } := by
      unfold phase_full_body
      rw [if_neg (by decide :
        ¬ (GenType.headshot = GenType.all ∨ GenType.headshot = GenType.full_body))]
    have h2 : phase_precondition .headshot { c with status := .processing } =
        .ok { c with status := .processing } := by
      unfold phase_precondition
      rw [if_neg (fun hc => hres ⟨hc.2.1, hc.2.2⟩)]
    have h3 : phase_three_view .headshot tvOut tTv { c with status := .processing } =
        .ok { c with status := .processing } := by
      unfold phase_three_view
      rw [if_neg (by decide :
        ¬ (GenType.headshot = GenType.all ∨ GenType.headshot = GenType.three_view))]
    have hne0 : ¬ ((run_headshot_batch { c with status := .processing } hsOut).2 = 0) := by
      rw [run_headshot_batch_count]
      have hpos : 0 < hsOut.countP (fun o => o.isSome) := by
        rcases hsucc with ⟨o, ho, hs⟩
        exact List.countP_pos_iff.mpr ⟨o, ho, hs⟩
      omega
    have h4 : phase_headshot .headshot hsOut tHs { c with status := .processing } =
        .ok { (run_headshot_batch { c with status := .processing } hsOut).1 with
              headshot_updated_at := tHs } := by
      unfold phase_headshot
      rw [if_pos (Or.inr rfl), if_neg hne0]
    rw [generate_character_ok_eq c .headshot outs tvOut hsOut tFb tTv tHs _ _ _ _
      h1 h2 h3 h4]
    exact ⟨rfl, rfl⟩

/-- A freshly created character: empty pools, default flags, creation
timestamp on the base stage (models.py lines 126-131). -/
def charA : Character :=
  { id := "c1", full_body_asset := emptyAsset, three_view_asset := emptyAsset,
    headshot_asset := emptyAsset, full_body_image_url := none,
    three_view_image_url := none, headshot_image_url := none, image_url := none,
    avatar_url := none, full_body_updated_at := 0, three_view_updated_at := 0,
    headshot_updated_at := 0, is_consistent := true, status := .pending }

/-- A character bootstrapped from an uploaded three-view image (also the
resolvable reverse-generation reference for the derived stages). -/
def charUp : Character :=
  { id := "c2", full_body_asset := emptyAsset,
    three_view_asset := { selected_id := none,
                          variants := [⟨"u1", "uploads/u1.png", 50, false, true⟩] },
    headshot_asset := emptyAsset, full_body_image_url := none,
    three_view_image_url := none, headshot_image_url := none, image_url := none,
    avatar_url := none, full_body_updated_at := 100, three_view_updated_at := 0,
    headshot_updated_at := 0, is_consistent := true, status := .pending }

/-- Witness for C6: three full-body failures raise `GenerationFailed`
with status `failed` and an untouched pool; a single success completes;
a derived-stage batch behaves the same under a resolvable reference. -/
theorem generation_batch_outcomes_witness :
    (generate_character charA .full_body [none, none, none] [] [] 5 0 0).2 =
      .error .generationFailed ∧
    (generate_character charA .full_body [none, none, none] [] [] 5 0 0).1.status =
      GenerationStatus.failed ∧
    (generate_character charA .full_body [none, none, none] [] [] 5 0 0).1.full_body_asset =
      charA.full_body_asset ∧
    (generate_character charA .full_body [some ⟨"g1", "g1.png", 6, false, false⟩]
        [] [] 6 0 0).2 = .ok () ∧
    (generate_character charUp .three_view [] [none] [] 0 150 0).2 =
      .error .generationFailed ∧
    (generate_character charUp .headshot [] []
        [some ⟨"h1", "h1.png", 200, false, false⟩] 0 0 200).1.status =
      GenerationStatus.completed := by
  have ha := (generation_batch_outcomes charA [none, none, none] [] [] 5 0 0).1.1
    (by intro o ho; simpa using ho)
  have hb := (generation_batch_outcomes charA
      [some ⟨"g1", "g1.png", 6, false, false⟩] [] [] 6 0 0).1.2
    ⟨some ⟨"g1", "g1.png", 6, false, false⟩, by simp, rfl⟩
  have hc := ((generation_batch_outcomes charUp [] [none] [] 0 150 0).2.1
    (by decide)).1 (by intro o ho; simpa using ho)
  have hd := ((generation_batch_outcomes charUp [] []
      [some ⟨"h1", "h1.png", 200, false, false⟩] 0 0 200).2.2 (by decide)).2
    ⟨some ⟨"h1", "h1.png", 200, false, false⟩, by simp, rfl⟩
  exact ⟨ha.1, ha.2.1, ha.2.2, hb.1, hc.1, hd.2⟩

lemma full_body_iter_pres (n : Nat) (acc : Character × Nat) (o : Option ImageVariant) :
    (full_body_iter n acc o).1.is_consistent = acc.1.is_consistent ∧
    (full_body_iter n acc o).1.three_view_updated_at = acc.1.three_view_updated_at ∧
    (full_body_iter n acc o).1.headshot_updated_at = acc.1.headshot_updated_at := by
  cases o with
  | none => exact ⟨rfl, rfl, rfl⟩
  | some v =>
    unfold full_body_iter
    dsimp only
    split
    · exact ⟨rfl, rfl, rfl⟩
    · exact ⟨rfl, rfl, rfl⟩

lemma three_view_iter_pres (n : Nat) (acc : Character × Nat) (o : Option ImageVariant) :
    (three_view_iter n acc o).1.is_consistent = acc.1.is_consistent ∧
    (three_view_iter n acc o).1.full_body_updated_at = acc.1.full_body_updated_at ∧
    (three_view_iter n acc o).1.headshot_updated_at = acc.1.headshot_updated_at := by
  cases o with
  | none => exact ⟨rfl, rfl, rfl⟩
  | some v =>
    unfold three_view_iter
    dsimp only
    split
    · exact ⟨rfl, rfl, rfl⟩
    · exact ⟨rfl, rfl, rfl⟩

lemma headshot_iter_pres (n : Nat) (acc : Character × Nat) (o : Option ImageVariant) :
    (headshot_iter n acc o).1.is_consistent = acc.1.is_consistent ∧
    (headshot_iter n acc o).1.full_body_updated_at = acc.1.full_body_updated_at ∧
    (headshot_iter n acc o).1.three_view_updated_at = acc.1.three_view_updated_at := by
  cases o with
  | none => exact ⟨rfl, rfl, rfl⟩
  | some v =>
    unfold headshot_iter
    dsimp only
    split
    · exact ⟨rfl, rfl, rfl⟩
    · exact ⟨rfl, rfl, rfl⟩

lemma run_full_body_pres (c : Character) (outs : List (Option ImageVariant)) :
    (run_full_body_batch c outs).1.is_consistent = c.is_consistent ∧
    (run_full_body_batch c outs).1.three_view_updated_at = c.three_view_updated_at ∧
    (run_full_body_batch c outs).1.headshot_updated_at = c.headshot_updated_at := by
  unfold run_full_body_batch
  exact ⟨foldl_iter_proj _ (fun ch => ch.is_consistent)
      (fun acc o => (full_body_iter_pres _ acc o).1) outs (c, 0),
    foldl_iter_proj _ (fun ch => ch.three_view_updated_at)
      (fun acc o => (full_body_iter_pres _ acc o).2.1) outs (c, 0),
    foldl_iter_proj _ (fun ch => ch.headshot_updated_at)
      (fun acc o => (full_body_iter_pres _ acc o).2.2) outs (c, 0)⟩

lemma run_three_view_pres (c : Character) (outs : List (Option ImageVariant)) :
    (run_three_view_batch c outs).1.is_consistent = c.is_consistent ∧
    (run_three_view_batch c outs).1.full_body_updated_at = c.full_body_updated_at ∧
    (run_three_view_batch c outs).1.headshot_updated_at = c.headshot_updated_at := by
  unfold run_three_view_batch
  exact ⟨foldl_iter_proj _ (fun ch => ch.is_consistent)
      (fun acc o => (three_view_iter_pres _ acc o).1) outs (c, 0),
    foldl_iter_proj _ (fun ch => ch.full_body_updated_at)
      (fun acc o => (three_view_iter_pres _ acc o).2.1) outs (c, 0),
    foldl_iter_proj _ (fun ch => ch.headshot_updated_at)
      (fun acc o => (three_view_iter_pres _ acc o).2.2) outs (c, 0)⟩

lemma run_headshot_pres (c : Character) (outs : List (Option ImageVariant)) :
    (run_headshot_batch c outs).1.is_consistent = c.is_consistent ∧
    (run_headshot_batch c outs).1.full_body_updated_at = c.full_body_updated_at ∧
    (run_headshot_batch c outs).1.three_view_updated_at = c.three_view_updated_at := by
  unfold run_headshot_batch
  exact ⟨foldl_iter_proj _ (fun ch => ch.is_consistent)
      (fun acc o => (headshot_iter_pres _ acc o).1) outs (c, 0),
    foldl_iter_proj _ (fun ch => ch.full_body_updated_at)
      (fun acc o => (headshot_iter_pres _ acc o).2.1) outs (c, 0),
    foldl_iter_proj _ (fun ch => ch.three_view_updated_at)
      (fun acc o => (headshot_iter_pres _ acc o).2.2) outs (c, 0)⟩

lemma phase_full_body_ok (g : GenType) (outs : List (Option ImageVariant)) (t : Int)
    (c c1 : Character) (h : phase_full_body g outs t c = .ok c1) :
    c1.is_consistent = (if g = GenType.full_body then false else c.is_consistent) ∧
    c1.three_view_updated_at = c.three_view_updated_at ∧
    c1.headshot_updated_at = c.headshot_updated_at := by
  unfold phase_full_body at h
  by_cases hg : g = .all ∨ g = .full_body
  · rw [if_pos hg] at h
    by_cases h0 : (run_full_body_batch c outs).2 = 0
    · rw [if_pos h0] at h
      exact absurd h (by simp)
    · rw [if_neg h0] at h
      by_cases hfb : g = .full_body
      · rw [if_pos hfb] at h
        injection h with h
        subst h
        rw [if_pos hfb]
        exact ⟨rfl, (run_full_body_pres c outs).2.1, (run_full_body_pres c outs).2.2⟩
      · rw [if_neg hfb] at h
        injection h with h
        subst h
        rw [if_neg hfb]
        exact ⟨(run_full_body_pres c outs).1, (run_full_body_pres c outs).2.1,
          (run_full_body_pres c outs).2.2⟩
  · rw [if_neg hg] at h
    injection h with h
    subst h
    rw [if_neg (fun hc => hg (Or.inr hc))]
    exact ⟨rfl, rfl, rfl⟩

lemma phase_precondition_ok (g : GenType) (c c1 : Character)
    (h : phase_precondition g c = .ok c1) : c1 = c := by
  unfold phase_precondition at h
  split at h
  · exact absurd h (by simp)
  · exact (Except.ok.inj h).symm

lemma phase_three_view_ok (g : GenType) (outs : List (Option ImageVariant)) (t : Int)
    (c c1 : Character) (h : phase_three_view g outs t c = .ok c1) :
    c1.is_consistent = c.is_consistent ∧
    c1.full_body_updated_at = c.full_body_updated_at ∧
    c1.headshot_updated_at = c.headshot_updated_at := by
  unfold phase_three_view at h
  by_cases hg : g = .all ∨ g = .three_view
  · rw [if_pos hg] at h
    by_cases h0 : (run_three_view_batch c outs).2 = 0
    · rw [if_pos h0] at h
      exact absurd h (by simp)
    · rw [if_neg h0] at h
      injection h with h
      subst h
      exact ⟨(run_three_view_pres c outs).1, (run_three_view_pres c outs).2.1,
        (run_three_view_pres c outs).2.2⟩
  · rw [if_neg hg] at h
    injection h with h
    subst h
    exact ⟨rfl, rfl, rfl⟩

lemma phase_headshot_ok (g : GenType) (outs : List (Option ImageVariant)) (t : Int)
    (c c1 : Character) (h : phase_headshot g outs t c = .ok c1) :
    c1.is_consistent = c.is_consistent ∧
    c1.full_body_updated_at = c.full_body_updated_at ∧
    c1.three_view_updated_at = c.three_view_updated_at := by
  unfold phase_headshot at h
  by_cases hg : g = .all ∨ g = .headshot
  · rw [if_pos hg] at h
    by_cases h0 : (run_headshot_batch c outs).2 = 0
    · rw [if_pos h0] at h
      exact absurd h (by simp)
    · rw [if_neg h0] at h
      injection h with h
      subst h
      exact ⟨(run_headshot_pres c outs).1, (run_headshot_pres c outs).2.1,
        (run_headshot_pres c outs).2.2⟩
  · rw [if_neg hg] at h
    injection h with h
    subst h
    exact ⟨rfl, rfl, rfl⟩

lemma phase_consistency_fields (g : GenType) (c : Character) :
    (phase_consistency g c).full_body_updated_at = c.full_body_updated_at ∧
    (phase_consistency g c).three_view_updated_at = c.three_view_updated_at ∧
    (phase_consistency g c).headshot_updated_at = c.headshot_updated_at := by
  unfold phase_consistency
  split
  · exact ⟨rfl, rfl, rfl⟩
  · split
    · exact ⟨rfl, rfl, rfl⟩
    · exact ⟨rfl, rfl, rfl⟩

/-- The consistency-flag update actually performed by the code: an
`all` run forces the flag to true; otherwise the flag becomes true when
every derived timestamp has caught up with the base timestamp, becomes
false after a full-body-only run, and otherwise keeps its previous
value. -/
def consistency_update_rule (g : GenType) (fb tv hs : Int) (prev : Bool) : Bool :=
  if g = .all then true
  else if tv ≥ fb ∧ hs ≥ fb then true
  else if g = .full_body then false
  else prev

lemma phase_consistency_flag (g : GenType) (c : Character) (prev : Bool)
    (hc : c.is_consistent = if g = GenType.full_body then false else prev) :
    (phase_consistency g c).is_consistent =
      consistency_update_rule g c.full_body_updated_at c.three_view_updated_at
        c.headshot_updated_at prev := by
  unfold phase_consistency consistency_update_rule
  by_cases hall : g = .all
  · rw [if_pos hall, if_pos hall]
  · rw [if_neg hall, if_neg hall]
    by_cases hcond : c.three_view_updated_at ≥ c.full_body_updated_at ∧
        c.headshot_updated_at ≥ c.full_body_updated_at
    · rw [if_pos hcond, if_pos hcond]
    · rw [if_neg hcond, if_neg hcond]
      exact hc

/-- C7 (amended): after a generation operation that completes
successfully, the consistency flag equals `consistency_update_rule`
applied to the resulting timestamps and the previous flag — it is forced
true by an `all` run or by every derived timestamp being at least the
base timestamp, forced false by a full-body-only run, and otherwise
retains its previous value (it is not an if-and-only-if derivation from
the timestamps). -/
theorem consistency_flag_update (c : Character) (g : GenType)
    (fbOut tvOut hsOut : List (Option ImageVariant)) (tFb tTv tHs : Int)
    (hok : (generate_character c g fbOut tvOut hsOut tFb tTv tHs).2 = .ok ()) :
    (generate_character c g fbOut tvOut hsOut tFb tTv tHs).1.is_consistent =
      consistency_update_rule g
        ((generate_character c g fbOut tvOut hsOut tFb tTv tHs).1.full_body_updated_at)
        ((generate_character c g fbOut tvOut hsOut tFb tTv tHs).1.three_view_updated_at)
        ((generate_character c g fbOut tvOut hsOut tFb tTv tHs).1.headshot_updated_at)
        c.is_consistent := by
  cases h1 : phase_full_body g fbOut tFb { c with status := .processing } with
  | error pe =>
    rcases pe with ⟨ce, e⟩
    rw [generate_character_err1 c g fbOut tvOut hsOut tFb tTv tHs ce e h1] at hok
    exact absurd hok (by simp)
  | ok c1 =>
    cases h2 : phase_precondition g c1 with
    | error pe =>
      rcases pe with ⟨ce, e⟩
      rw [generate_character_err2 c g fbOut tvOut hsOut tFb tTv tHs c1 ce e h1 h2] at hok
      exact absurd hok (by simp)
    | ok c2 =>
      cases h3 : phase_three_view g tvOut tTv c2 with
      | error pe =>
        rcases pe with ⟨ce, e⟩
        rw [generate_character_err3 c g fbOut tvOut hsOut tFb tTv tHs c1 c2 ce e
          h1 h2 h3] at hok
        exact absurd hok (by simp)
      | ok c3 =>
        cases h4 : phase_headshot g hsOut tHs c3 with
        | error pe =>
          rcases pe with ⟨ce, e⟩
          rw [generate_character_err4 c g fbOut tvOut hsOut tFb tTv tHs c1 c2 c3 ce e
            h1 h2 h3 h4] at hok
          exact absurd hok (by simp)
        | ok c4 =>
          rw [generate_character_ok_eq c g fbOut tvOut hsOut tFb tTv tHs c1 c2 c3 c4
            h1 h2 h3 h4]
          have hfields := phase_consistency_fields g c4
          have hc2 : c2 = c1 := phase_precondition_ok g c1 c2 h2
          have hflag1 := phase_full_body_ok g fbOut tFb _ c1 h1
          have hflag3 := phase_three_view_ok g tvOut tTv c2 c3 h3
          have hflag4 := phase_headshot_ok g hsOut tHs c3 c4 h4
          have hc4flag : c4.is_consistent =
              if g = GenType.full_body then false else c.is_consistent := by
            rw [hflag4.1, hflag3.1, hc2, hflag1.1]
          show (phase_consistency g c4).is_consistent =
            consistency_update_rule g (phase_consistency g c4).full_body_updated_at
              (phase_consistency g c4).three_view_updated_at
              (phase_consistency g c4).headshot_updated_at c.is_consistent
          rw [hfields.1, hfields.2.1, hfields.2.2]
          exact phase_consistency_flag g c4 c.is_consistent hc4flag

/-- A character bootstrapped from an uploaded three-view image: default
flag `is_consistent = true`, base timestamp 100, derived stages never
generated. -/
def cFresh : Character :=
  { id := "c2", full_body_asset := emptyAsset,
    three_view_asset := { selected_id := none,
                          variants := [⟨"u1", "uploads/u1.png", 50, false, true⟩] },
    headshot_asset := emptyAsset, full_body_image_url := none,
    three_view_image_url := none, headshot_image_url := none, image_url := none,
    avatar_url := none, full_body_updated_at := 100, three_view_updated_at := 0,
    headshot_updated_at := 0, is_consistent := true, status := .pending }

/-- Counterexample for C7 as stated: a successful reverse-generation
three-view run at time 150 on `cFresh` completes with
`is_consistent = true` even though the headshot timestamp (0) is below
the full-body timestamp (100) — the flag is not an if-and-only-if
function of the timestamps, it merely keeps its previous value. -/
theorem consistency_iff_counterexample :
    (generate_character cFresh .three_view []
        [some ⟨"g2", "g2.png", 150, false, false⟩] [] 0 150 0).2 = .ok () ∧
    (generate_character cFresh .three_view []
        [some ⟨"g2", "g2.png", 150, false, false⟩] [] 0 150 0).1.is_consistent = true ∧
    ¬ ((generate_character cFresh .three_view []
          [some ⟨"g2", "g2.png", 150, false, false⟩] [] 0 150 0).1.headshot_updated_at ≥
        (generate_character cFresh .three_view []
          [some ⟨"g2", "g2.png", 150, false, false⟩] [] 0 150 0).1.full_body_updated_at) :=
  ⟨rfl, by decide, by decide⟩

/-- Witness for the amended C7 at the concrete reverse-generation run. -/
theorem consistency_flag_update_witness :
    (generate_character cFresh .three_view []
        [some ⟨"g2", "g2.png", 150, false, false⟩] [] 0 150 0).1.is_consistent =
      consistency_update_rule .three_view
        ((generate_character cFresh .three_view []
            [some ⟨"g2", "g2.png", 150, false, false⟩] [] 0 150 0).1.full_body_updated_at)
        ((generate_character cFresh .three_view []
            [some ⟨"g2", "g2.png", 150, false, false⟩] [] 0 150 0).1.three_view_updated_at)
        ((generate_character cFresh .three_view []
            [some ⟨"g2", "g2.png", 150, false, false⟩] [] 0 150 0).1.headshot_updated_at)
        cFresh.is_consistent :=
  consistency_flag_update cFresh .three_view []
    [some ⟨"g2", "g2.png", 150, false, false⟩] [] 0 150 0 rfl

/-- A Python object viewed through `hasattr`/`setattr`/`getattr`: the
map of its declared pydantic model fields.  Values are opaque
(`String`); `update_asset_attributes` never inspects them. -/
abbrev PyObj := List (String × String)

/-- `getattr(target_asset, key)` restricted to declared fields:
first-match association lookup. -/
def pyGetattr (o : PyObj) (k : String) : Option String :=
  match o with
  | [] => none
  | (a, b) :: t => if a == k then some b else pyGetattr t k

/-- Attribute names every pydantic model object carries beyond its
declared fields: the methods inherited from `BaseModel` (the pipeline
itself calls one, `script.dict()`, when saving).  `hasattr` answers
true for them, while pydantic refuses to assign to them. -/
def pydantic_base_attrs : List String := ["dict", "json", "copy", "schema"]

/-- `hasattr(target_asset, key)`: true for a declared field and for an
attribute inherited from `BaseModel`. -/
def pyHasattr (o : PyObj) (k : String) : Bool :=
  (pyGetattr o k).isSome || pydantic_base_attrs.contains k

/-- Assignment to a declared field; the key set never changes. -/
def pySetattrField : PyObj → String → String → PyObj
  | [], _, _ => []
  | (a, b) :: t, k, v =>
    if a == k then (a, v) :: pySetattrField t k v else (a, b) :: pySetattrField t k v

/-- `setattr(target_asset, key, value)`: pydantic `__setattr__` under
the models' default config (mutation allowed, extra attributes not
allowed) assigns a declared field and raises `ValueError` for any other
name — including the `BaseModel` attributes that `hasattr` reports. -/
def pySetattr (o : PyObj) (k v : String) : Except String PyObj :=
  if (pyGetattr o k).isSome then .ok (pySetattrField o k v)
  else .error ("ValueError: object has no field " ++ k)

/-- A key on which the update loop raises: `hasattr` is true because it
names a `BaseModel` attribute, but it is not a declared field, so
`setattr` refuses it. -/
def nonFieldAttr (o : PyObj) (k : String) : Bool :=
  pydantic_base_attrs.contains k && (pyGetattr o k).isNone

/-- The update loop of `update_asset_attributes` (pipeline.py lines
315-319): keys with a matching attribute are passed to `setattr`, whose
`ValueError` propagates uncaught; keys naming no attribute at all are
logged and skipped. -/
def update_attributes_loop : PyObj → List (String × String) → Except String PyObj
  | o, [] => .ok o
  | o, (k, v) :: rest =>
    if pyHasattr o k then
      match pySetattr o k v with
      | .ok o2 => update_attributes_loop o2 rest
      | .error e => .error e
    else update_attributes_loop o rest

/-- The asset collections of a project, as attribute maps. -/
structure AttrScript where
  characters : List PyObj
  scenes : List PyObj
  props : List PyObj
deriving DecidableEq, Repr

/-- The `asset_type` dispatch of `update_asset_attributes`. -/
inductive AssetType3 where
  | character
  | scene
  | prop
deriving DecidableEq, Repr

/-- The asset list inspected for a given `asset_type` (pipeline.py lines
304-309). -/
def asset_list_of (s : AttrScript) : AssetType3 → List PyObj
  | .character => s.characters
  | .scene => s.scenes
  | .prop => s.props

/-- Embeds `update_asset_attributes` (pipeline.py lines 298-323): raises
`ValueError` when the project id or the asset id is unknown; otherwise
runs the reflection loop on the found asset — a `ValueError` from
`setattr` inside the loop propagates to the caller — and on success
returns the updated project map.  (`_save_data` never raises; see
`save_data`.) -/
def update_asset_attributes (scripts : List (String × AttrScript))
    (script_id asset_id : String) (ty : AssetType3)
    (attrs : List (String × String)) : Except String (List (String × AttrScript)) :=
  match scripts.lookup script_id with
  | none => .error "Script not found"
  | some script =>
    match (asset_list_of script ty).find? (fun o => pyGetattr o "id" == some asset_id) with
    | none => .error "Asset not found"
    | some target =>
      match update_attributes_loop target attrs with
      | .error e => .error e
      | .ok newObj =>
        (let newList := modifyFirst (fun o => pyGetattr o "id" == some asset_id)
          (fun _ => newObj) (asset_list_of script ty)
        let script2 := match ty with
          | .character => { script with characters := newList }
          | .scene => { script with scenes := newList }
          | .prop => { script with props := newList }
        .ok (scripts.map fun e => if e.1 == script_id then (e.1, script2) else e))

lemma pyGetattr_pySetattrField_of_none (o : PyObj) (k0 v0 k : String)
    (h : pyGetattr o k = none) : pyGetattr (pySetattrField o k0 v0) k = none := by
  induction o with
  | nil => rfl
  | cons p t ih =>
    rcases p with ⟨a, b⟩
    rw [pyGetattr] at h
    by_cases hak : (a == k) = true
    · rw [if_pos hak] at h
      exact absurd h (by simp)
    · rw [if_neg hak] at h
      rw [pySetattrField]
      by_cases hk0 : (a == k0) = true
      · rw [if_pos hk0, pyGetattr, if_neg hak]
        exact ih h
      · rw [if_neg hk0, pyGetattr, if_neg hak]
        exact ih h

lemma pyGetattr_pySetattrField_self (o : PyObj) (k v0 : String)
    (h : (pyGetattr o k).isSome = true) :
    pyGetattr (pySetattrField o k v0) k = some v0 := by
  induction o with
  | nil => simp [pyGetattr] at h
  | cons p t ih =>
    rcases p with ⟨a, b⟩
    rw [pyGetattr] at h
    by_cases hak : (a == k) = true
    · rw [pySetattrField, if_pos hak, pyGetattr, if_pos hak]
    · rw [if_neg hak] at h
      rw [pySetattrField, if_neg hak, pyGetattr, if_neg hak]
      exact ih h

lemma pyGetattr_pySetattrField_ne (o : PyObj) (k0 v0 k : String) (hne : ¬ k0 = k) :
    pyGetattr (pySetattrField o k0 v0) k = pyGetattr o k := by
  induction o with
  | nil => rfl
  | cons p t ih =>
    rcases p with ⟨a, b⟩
    by_cases hk0 : (a == k0) = true
    · have hak : (a == k) = false := by
        rw [Bool.eq_false_iff]
        intro hc
        exact hne ((eq_of_beq hk0).symm.trans (eq_of_beq hc))
      rw [pySetattrField, if_pos hk0, pyGetattr, pyGetattr, hak]
      simp only [Bool.false_eq_true, if_false]
      exact ih
    · rw [pySetattrField, if_neg hk0, pyGetattr, pyGetattr]
      by_cases hak : (a == k) = true
      · rw [if_pos hak, if_pos hak]
      · rw [if_neg hak, if_neg hak]
        exact ih

lemma pyGetattr_isSome_pySetattrField (o : PyObj) (k0 v0 k : String) :
    (pyGetattr (pySetattrField o k0 v0) k).isSome = (pyGetattr o k).isSome := by
  by_cases hk : k0 = k
  · subst hk
    cases h : pyGetattr o k0 with
    | none => rw [pyGetattr_pySetattrField_of_none o k0 v0 k0 h]
    | some old =>
      rw [pyGetattr_pySetattrField_self o k0 v0 (by rw [h]; rfl)]
      rfl
  · rw [pyGetattr_pySetattrField_ne o k0 v0 k hk]

lemma nonFieldAttr_pySetattrField (o : PyObj) (k0 v0 k : String) :
    nonFieldAttr (pySetattrField o k0 v0) k = nonFieldAttr o k := by
  have h := pyGetattr_isSome_pySetattrField o k0 v0 k
  rw [nonFieldAttr, nonFieldAttr]
  cases h1 : pyGetattr (pySetattrField o k0 v0) k with
  | none =>
    cases h2 : pyGetattr o k with
    | none => rfl
    | some b => rw [h1, h2] at h; exact absurd h (by simp)
  | some a =>
    cases h2 : pyGetattr o k with
    | none => rw [h1, h2] at h; exact absurd h (by simp)
    | some b => rfl

lemma all_nonFieldAttr_congr (l : List (String × String)) (o o2 : PyObj)
    (h : ∀ k, nonFieldAttr o2 k = nonFieldAttr o k) :
    l.all (fun kv => !(nonFieldAttr o2 kv.1)) = l.all (fun kv => !(nonFieldAttr o kv.1)) := by
  induction l with
  | nil => rfl
  | cons kv t ih => rw [List.all_cons, List.all_cons, h, ih]

lemma update_attributes_loop_cons (o : PyObj) (k0 v0 : String)
    (rest : List (String × String)) :
    update_attributes_loop o ((k0, v0) :: rest) =
      (if pyHasattr o k0 then
        match pySetattr o k0 v0 with
        | .ok o2 => update_attributes_loop o2 rest
        | .error e => Except.error e
      else update_attributes_loop o rest) := rfl

lemma update_attributes_loop_step_field (o : PyObj) (k0 v0 : String)
    (rest : List (String × String)) (hf : (pyGetattr o k0).isSome = true) :
    update_attributes_loop o ((k0, v0) :: rest) =
      update_attributes_loop (pySetattrField o k0 v0) rest := by
  have hhas : pyHasattr o k0 = true := by rw [pyHasattr, hf]; rfl
  have hset : pySetattr o k0 v0 = .ok (pySetattrField o k0 v0) := by
    rw [pySetattr, if_pos hf]
  rw [update_attributes_loop_cons, if_pos hhas, hset]

lemma update_attributes_loop_step_method (o : PyObj) (k0 v0 : String)
    (rest : List (String × String)) (hf : (pyGetattr o k0).isSome = false)
    (hm : pydantic_base_attrs.contains k0 = true) :
    update_attributes_loop o ((k0, v0) :: rest) =
      .error ("ValueError: object has no field " ++ k0) := by
  have hhas : pyHasattr o k0 = true := by rw [pyHasattr, hf, hm]; rfl
  have hset : pySetattr o k0 v0 =
      .error ("ValueError: object has no field " ++ k0) := by
    rw [pySetattr, if_neg (by rw [hf]; exact Bool.false_ne_true)]
  rw [update_attributes_loop_cons, if_pos hhas, hset]

lemma update_attributes_loop_step_skip (o : PyObj) (k0 v0 : String)
    (rest : List (String × String)) (hf : (pyGetattr o k0).isSome = false)
    (hm : pydantic_base_attrs.contains k0 = false) :
    update_attributes_loop o ((k0, v0) :: rest) = update_attributes_loop o rest := by
  have hhas : pyHasattr o k0 = false := by rw [pyHasattr, hf, hm]; rfl
  rw [update_attributes_loop_cons, if_neg (by rw [hhas]; exact Bool.false_ne_true)]

lemma update_attributes_loop_isOk :
    ∀ (attrs : List (String × String)) (o : PyObj),
      (update_attributes_loop o attrs).isOk =
        attrs.all (fun kv => !(nonFieldAttr o kv.1)) := by
  intro attrs
  induction attrs with
  | nil => intro o; rfl
  | cons kv rest ih =>
    intro o
    rcases kv with ⟨k0, v0⟩
    rw [List.all_cons]
    by_cases hf : (pyGetattr o k0).isSome = true
    · have hnfa : nonFieldAttr o k0 = false := by
        rw [nonFieldAttr]
        cases hg : pyGetattr o k0 with
        | none => rw [hg] at hf; exact absurd hf (by simp)
        | some b => simp
      rw [update_attributes_loop_step_field o k0 v0 rest hf, ih (pySetattrField o k0 v0),
        all_nonFieldAttr_congr rest o (pySetattrField o k0 v0)
          (fun k => nonFieldAttr_pySetattrField o k0 v0 k), hnfa]
      simp
    · have hf0 : (pyGetattr o k0).isSome = false := by
        cases hcase : (pyGetattr o k0).isSome with
        | false => rfl
        | true => exact absurd hcase hf
      by_cases hm : pydantic_base_attrs.contains k0 = true
      · have hnfa : nonFieldAttr o k0 = true := by
          rw [nonFieldAttr, hm]
          cases hg : pyGetattr o k0 with
          | none => rfl
          | some b => rw [hg] at hf0; exact absurd hf0 (by simp)
        rw [update_attributes_loop_step_method o k0 v0 rest hf0 hm, hnfa]
        rfl
      · have hm0 : pydantic_base_attrs.contains k0 = false := by
          cases hcase : pydantic_base_attrs.contains k0 with
          | false => rfl
          | true => exact absurd hcase hm
        have hnfa : nonFieldAttr o k0 = false := by rw [nonFieldAttr, hm0]; rfl
        rw [update_attributes_loop_step_skip o k0 v0 rest hf0 hm0, ih o, hnfa]
        simp

lemma update_attributes_loop_ok_none :
    ∀ (attrs : List (String × String)) (o o2 : PyObj) (k : String),
      update_attributes_loop o attrs = .ok o2 →
      pyGetattr o k = none → pyGetattr o2 k = none := by
  intro attrs
  induction attrs with
  | nil =>
    intro o o2 k hok h
    have hok2 : (Except.ok o : Except String PyObj) = .ok o2 := hok
    injection hok2 with h2
    rw [← h2]
    exact h
  | cons kv rest ih =>
    intro o o2 k hok h
    rcases kv with ⟨k0, v0⟩
    by_cases hf : (pyGetattr o k0).isSome = true
    · rw [update_attributes_loop_step_field o k0 v0 rest hf] at hok
      exact ih (pySetattrField o k0 v0) o2 k hok
        (pyGetattr_pySetattrField_of_none o k0 v0 k h)
    · have hf0 : (pyGetattr o k0).isSome = false := by
        cases hcase : (pyGetattr o k0).isSome with
        | false => rfl
        | true => exact absurd hcase hf
      by_cases hm : pydantic_base_attrs.contains k0 = true
      · rw [update_attributes_loop_step_method o k0 v0 rest hf0 hm] at hok
        exact absurd hok (by simp)
      · have hm0 : pydantic_base_attrs.contains k0 = false := by
          cases hcase : pydantic_base_attrs.contains k0 with
          | false => rfl
          | true => exact absurd hcase hm
        rw [update_attributes_loop_step_skip o k0 v0 rest hf0 hm0] at hok
        exact ih o o2 k hok h

lemma update_attributes_loop_ok_some :
    ∀ (attrs : List (String × String)) (o o2 : PyObj) (k old : String),
      update_attributes_loop o attrs = .ok o2 →
      pyGetattr o k = some old →
      pyGetattr o2 k =
        attrs.foldl (fun acc kv => if kv.1 == k then some kv.2 else acc) (some old) := by
  intro attrs
  induction attrs with
  | nil =>
    intro o o2 k old hok h
    have hok2 : (Except.ok o : Except String PyObj) = .ok o2 := hok
    injection hok2 with h2
    rw [← h2]
    exact h
  | cons kv rest ih =>
    intro o o2 k old hok h
    rcases kv with ⟨k0, v0⟩
    rw [List.foldl_cons]
    by_cases hf : (pyGetattr o k0).isSome = true
    · rw [update_attributes_loop_step_field o k0 v0 rest hf] at hok
      by_cases hk0 : (k0 == k) = true
      · have hkeq : k0 = k := eq_of_beq hk0
        have hinit : (if ((k0, v0).1 == k) = true then some (k0, v0).2 else some old) =
            some v0 := by
          dsimp only
          exact if_pos hk0
        rw [hinit]
        refine ih (pySetattrField o k0 v0) o2 k v0 hok ?hv
        rw [hkeq]
        exact pyGetattr_pySetattrField_self o k v0 (by rw [h]; rfl)
      · have hne : ¬ k0 = k := fun hc => hk0 (beq_iff_eq.mpr hc)
        have hinit : (if ((k0, v0).1 == k) = true then some (k0, v0).2 else some old) =
            some old := by
          dsimp only
          exact if_neg hk0
        rw [hinit]
        refine ih (pySetattrField o k0 v0) o2 k old hok ?ho
        rw [pyGetattr_pySetattrField_ne o k0 v0 k hne]
        exact h
    · have hf0 : (pyGetattr o k0).isSome = false := by
        cases hcase : (pyGetattr o k0).isSome with
        | false => rfl
        | true => exact absurd hcase hf
      have hk0 : ¬ (k0 == k) = true := by
        intro hc
        have hkeq : k0 = k := eq_of_beq hc
        rw [hkeq, h] at hf0
        exact absurd hf0 (by simp)
      have hinit : (if ((k0, v0).1 == k) = true then some (k0, v0).2 else some old) =
          some old := by
        dsimp only
        exact if_neg hk0
      rw [hinit]
      by_cases hm : pydantic_base_attrs.contains k0 = true
      · rw [update_attributes_loop_step_method o k0 v0 rest hf0 hm] at hok
        exact absurd hok (by simp)
      · have hm0 : pydantic_base_attrs.contains k0 = false := by
          cases hcase : pydantic_base_attrs.contains k0 with
          | false => rfl
          | true => exact absurd hcase hm
        rw [update_attributes_loop_step_skip o k0 v0 rest hf0 hm0] at hok
        exact ih o o2 k old hok h

/-- C10: given resolved project and asset ids, the attribute patch
succeeds iff no key names a non-field `BaseModel` attribute (pydantic
raises `ValueError` on assignment to those even though `hasattr` is
true); on success every key naming a declared field holds the last
value given for it, and keys naming no attribute at all are skipped
with the object untouched at them. -/
theorem update_asset_attributes_spec :
    (∀ (scripts : List (String × AttrScript)) (sid aid : String) (ty : AssetType3)
        (attrs : List (String × String)),
      (update_asset_attributes scripts sid aid ty attrs).isOk =
        ((scripts.lookup sid).any fun script =>
          ((asset_list_of script ty).find?
            (fun o => pyGetattr o "id" == some aid)).any
            fun target => attrs.all fun kv => !(nonFieldAttr target kv.1))) ∧
    (∀ (o o2 : PyObj) (attrs : List (String × String)) (k : String),
      update_attributes_loop o attrs = .ok o2 →
      (pyGetattr o k = none → pyGetattr o2 k = none) ∧
      (∀ old, pyGetattr o k = some old →
        pyGetattr o2 k =
          attrs.foldl (fun acc kv => if kv.1 == k then some kv.2 else acc) (some old))) := by
  constructor
  · intro scripts sid aid ty attrs
    cases hl : scripts.lookup sid with
    | none => simp [update_asset_attributes, Except.isOk, Except.toBool, Option.any, hl]
    | some script =>
      cases hf : (asset_list_of script ty).find?
          (fun o => pyGetattr o "id" == some aid) with
      | none => simp [update_asset_attributes, Except.isOk, Except.toBool, Option.any, hl, hf]
      | some target =>
        have hred : (update_asset_attributes scripts sid aid ty attrs).isOk =
            (update_attributes_loop target attrs).isOk := by
          cases hloop : update_attributes_loop target attrs with
          | error e =>
            simp [update_asset_attributes, Except.isOk, Except.toBool, hl, hf, hloop]
          | ok newObj =>
            simp [update_asset_attributes, Except.isOk, Except.toBool, hl, hf, hloop]
        rw [hred, update_attributes_loop_isOk attrs target]
        simp [Option.any, hl, hf]
  · intro o o2 attrs k hok
    exact ⟨update_attributes_loop_ok_none attrs o o2 k hok,
      fun old h => update_attributes_loop_ok_some attrs o o2 k old hok h⟩

/-- A character as an attribute map. -/
def objChar : PyObj := [("id", "c9"), ("name", "Alex"), ("description", "hero")]

/-- A project map holding `objChar`. -/
def attrScriptsOne : List (String × AttrScript) :=
  [("p", { characters := [objChar], scenes := [], props := [] })]

/-- The character after the witness patch. -/
def objChar2 : PyObj := [("id", "c9"), ("name", "Alexa"), ("description", "hero")]

/-- Counterexample to C10 as stated: with both ids resolving (the empty
patch succeeds), patching the same asset with the key "dict" — a
`BaseModel` method, so `hasattr` is true but it names no declared
field — raises `ValueError` instead of being skipped. -/
theorem update_attributes_method_counterexample :
    (update_asset_attributes attrScriptsOne "p" "c9" .character []).isOk = true ∧
    update_asset_attributes attrScriptsOne "p" "c9" .character [("dict", "x")] =
      .error "ValueError: object has no field dict" :=
  ⟨rfl, rfl⟩

/-- Witness for C10: a patch mixing a declared field (name) and a key
that names no attribute at all (power) succeeds, sets the field and
skips the unknown key. -/
theorem update_asset_attributes_spec_witness :
    (update_asset_attributes attrScriptsOne "p" "c9" .character
        [("name", "Alexa"), ("power", "fly")]).isOk = true ∧
    update_attributes_loop objChar [("name", "Alexa"), ("power", "fly")] = .ok objChar2 ∧
    pyGetattr objChar2 "name" = some "Alexa" ∧
    pyGetattr objChar2 "power" = none := by
  have hok : update_attributes_loop objChar [("name", "Alexa"), ("power", "fly")] =
      .ok objChar2 := rfl
  refine ⟨?h1, hok, ?h2, ?h3⟩
  · rw [update_asset_attributes_spec.1 attrScriptsOne "p" "c9" .character
      [("name", "Alexa"), ("power", "fly")]]
    decide
  · rw [(update_asset_attributes_spec.2 objChar objChar2
      [("name", "Alexa"), ("power", "fly")] "name" hok).2 "Alex" rfl]
    decide
  · exact (update_asset_attributes_spec.2 objChar objChar2
      [("name", "Alexa"), ("power", "fly")] "power" hok).1 rfl

end LumenX
